import Mathlib

/-!
Verification development for the fluxemu repository.

This file gives a shallow embedding of the parts of the code base that the
specification's claims are about:

* the MOS 6502 / 65C02 CPU core of `src/definition/mos6502/src/lib.rs`,
  `cycle.rs` and `instruction.rs` (flag register, interrupt flags, the cycle
  vocabulary, instruction expansion and the per-quantum interpreter of
  `Mos6502::synchronize`);
* the cooperative scheduler of `src/lib/runtime/src/scheduler/mod.rs`
  (`Scheduler::run`, `SynchronizationContext::allocate`, `QuantaIterator`).

Machine integers are modelled as `Nat` with explicit reductions `% 256`,
`% 65536` and `% 2 ^ 128` where the Rust code uses `u8`, `u16` and
`FixedU128<U64>`.  Rust panics (`unreachable!`, `todo!`, out-of-bounds
indexing) are modelled by `Option`, with `none` standing for the panic.
-/

namespace Fluxemu

/-- Mirrors `Mos6502Kind` of `lib.rs`: the four supported CPU variants. -/
inductive Mos6502Kind where
  | Mos6502
  | Mos6507
  | Ricoh2A0x
  | Wdc65C02
deriving DecidableEq, Repr

namespace Mos6502Kind

/-- Mirrors `Mos6502Kind::supports_decimal`. -/
def supports_decimal : Mos6502Kind → Bool
  | .Ricoh2A0x => false
  | _ => true

/-- Mirrors `Mos6502Kind::supports_interrupts`. -/
def supports_interrupts : Mos6502Kind → Bool
  | .Mos6507 => false
  | _ => true

/-- Mirrors `Mos6502Kind::has_absolute_indirect_page_wrap_errata`. -/
def has_absolute_indirect_page_wrap_errata : Mos6502Kind → Bool
  | .Mos6502 => true
  | .Mos6507 => true
  | .Ricoh2A0x => true
  | .Wdc65C02 => false

end Mos6502Kind

/-- Mirrors `FlagRegister` of `lib.rs`: the six stored processor flags. -/
structure FlagRegister where
  negative : Bool
  overflow : Bool
  decimal : Bool
  interrupt_disable : Bool
  zero : Bool
  carry : Bool
deriving DecidableEq, Repr

namespace FlagRegister

/-- The all-clear flag register, mirroring `FlagRegister::default()`. -/
def default : FlagRegister :=
  ⟨false, false, false, false, false, false⟩

/-- Mirrors `FlagRegister::to_byte`: bit 7 = N, 6 = V, 5 = always 1,
4 = `break_`, 3 = D, 2 = I, 1 = Z, 0 = C. -/
def to_byte (f : FlagRegister) (break_ : Bool) : Nat :=
  (if f.negative then 128 else 0) +
  (if f.overflow then 64 else 0) +
  32 +
  (if break_ then 16 else 0) +
  (if f.decimal then 8 else 0) +
  (if f.interrupt_disable then 4 else 0) +
  (if f.zero then 2 else 0) +
  (if f.carry then 1 else 0)

/-- Mirrors `FlagRegister::from_byte`: reads bits 7, 6, 3, 2, 1, 0 and
ignores bits 5 and 4. -/
def from_byte (byte : Nat) : FlagRegister where
  negative := byte.testBit 7
  overflow := byte.testBit 6
  decimal := byte.testBit 3
  interrupt_disable := byte.testBit 2
  zero := byte.testBit 1
  carry := byte.testBit 0

end FlagRegister

/-- Mirrors `NmiFlag` of `lib.rs`: the current line level plus the latched
falling edge (the field name keeps the source's spelling). -/
structure NmiFlag where
  current_state : Bool
  falling_edge_occured : Bool
deriving DecidableEq, Repr

namespace NmiFlag

/-- Mirrors `NmiFlag::default()`: line high, no latched edge. -/
def init : NmiFlag :=
  ⟨true, false⟩

/-- Mirrors `NmiFlag::store`: `swap` returns the previous state; a
high-to-low transition latches the falling edge. -/
def store (s : NmiFlag) (nmi : Bool) : NmiFlag where
  current_state := nmi
  falling_edge_occured :=
    if s.current_state && !nmi then true else s.falling_edge_occured

/-- Mirrors `NmiFlag::interrupt_required`: `swap(false)` returns the latch
and clears it. -/
def interrupt_required (s : NmiFlag) : Bool × NmiFlag :=
  (s.falling_edge_occured, { s with falling_edge_occured := false })

end NmiFlag

/-- Mirrors `IrqFlag` of `lib.rs` as its stored boolean; `default` stores
`true`, and `interrupt_required` is the negation of the stored level. -/
def IrqFlag.interrupt_required (stored : Bool) : Bool :=
  !stored

/-- Mirrors `GeneralPurposeRegister` of `cycle.rs`. -/
inductive GeneralPurposeRegister where
  | A
  | X
  | Y
deriving DecidableEq, Repr

/-- Mirrors `AddToPointerLikeRegisterSource` of `cycle.rs`. -/
inductive AddToPointerLikeRegisterSource where
  | Register (register : GeneralPurposeRegister)
  | Constant (value : Nat)
  | Operand
deriving DecidableEq, Repr

/-- Mirrors `BusMode` of `cycle.rs`. -/
inductive BusMode where
  | Read
  | Write
deriving DecidableEq, Repr

/-- Mirrors `MoveSource` of `cycle.rs`. -/
inductive MoveSource where
  | Register (register : GeneralPurposeRegister)
  | Operand
  | Stack
  | Data
  | Constant (value : Nat)
  | Flags (break_ : Bool)
  | InstructionPointer (offset : Nat)
deriving DecidableEq, Repr

/-- Mirrors `MoveDestination` of `cycle.rs`. -/
inductive MoveDestination where
  | Register (register : GeneralPurposeRegister) (update_nz : Bool)
  | Operand
  | Stack
  | EffectiveAddress
  | Opcode
  | Data
  | Flags
deriving DecidableEq, Repr

/-- Mirrors `Flag` of `cycle.rs`. -/
inductive Flag where
  | Carry
  | Zero
  | Overflow
  | Negative
  | Decimal
  | InterruptDisable
deriving DecidableEq, Repr

/-- Mirrors `SetAddressBusSource` of `cycle.rs`. -/
inductive SetAddressBusSource where
  | InstructionPointer
  | EffectiveAddress
  | Constant (value : Nat)
  | Stack
deriving DecidableEq, Repr

/-- Mirrors `PointerLikeRegister` of `cycle.rs`. -/
inductive PointerLikeRegister where
  | AddressBus
  | EffectiveAddress
  | InstructionPointer
deriving DecidableEq, Repr

/-- Mirrors `ArithmeticOperandInterpretation` of `cycle.rs`. -/
inductive ArithmeticOperandInterpretation where
  | Unsigned
  | Signed
deriving DecidableEq, Repr

/-- Mirrors `IncrementOperand` of `cycle.rs`. -/
inductive IncrementOperand where
  | X
  | Y
  | Operand
deriving DecidableEq, Repr

/-- Mirrors `ShiftDirection` of `cycle.rs`. -/
inductive ShiftDirection where
  | Left
  | Right
deriving DecidableEq, Repr

/-- Mirrors `Phi1` of `cycle.rs`. -/
inductive Phi1 where
  | SetAddressBus (source : SetAddressBusSource)
deriving DecidableEq, Repr

/-- Mirrors `Phi2` of `cycle.rs`; the `carry` of
`AddCarryToPointerLikeRegister` is the source's `i8`, kept as `Int`. -/
inductive Phi2 where
  | Move (source : MoveSource) (destination : MoveDestination)
  | SetFlag (flag : Flag) (value : Bool)
  | Increment (operand : IncrementOperand) (subtract : Bool)
  | Compare (register : GeneralPurposeRegister)
  | IncrementStack (subtract : Bool)
  | Add (invert_operand : Bool)
  | And (writeback : Bool)
  | Or
  | Xor
  | Shift (direction : ShiftDirection) (rotate : Bool) (a_is_operand : Bool)
  | IncrementInstructionPointer
  | AddToPointerLikeRegister
      (insert_adjustment_cycle_upon_carry : Bool)
      (interpretation : ArithmeticOperandInterpretation)
      (source : AddToPointerLikeRegisterSource)
      (destination : PointerLikeRegister)
  | AddCarryToPointerLikeRegister (register : PointerLikeRegister) (carry : Int)
  | LoadInstructionPointerFromEffectiveAddress
deriving DecidableEq, Repr

/-- Mirrors `Cycle` of `cycle.rs`; the source's `ArrayVec<Phi2, 3>` is kept
as a list (all cycles the code builds hold at most three steps). -/
structure Cycle where
  bus_mode : BusMode
  phi1 : Option Phi1
  phi2 : List Phi2
deriving DecidableEq, Repr

/-- Mirrors `Cycle::dummy()`. -/
def Cycle.dummy : Cycle :=
  ⟨BusMode.Read, none, []⟩

/-- Mirrors `RESET_VECTOR` of `lib.rs`. -/
def RESET_VECTOR : Nat := 0xfffc

/-- Mirrors `IRQ_VECTOR` of `lib.rs`. -/
def IRQ_VECTOR : Nat := 0xfffe

/-- Mirrors `NMI_VECTOR` of `lib.rs`. -/
def NMI_VECTOR : Nat := 0xfffa

/-- Mirrors `STACK_BASE_ADDRESS` of `lib.rs`. -/
def STACK_BASE_ADDRESS : Nat := 0x0100

/-- Mirrors `Mos6502AddressingMode` of `instruction.rs`. -/
inductive Mos6502AddressingMode where
  | Immediate
  | Absolute
  | XIndexedAbsolute
  | YIndexedAbsolute
  | AbsoluteIndirect
  | ZeroPage
  | XIndexedZeroPage
  | YIndexedZeroPage
  | XIndexedZeroPageIndirect
  | ZeroPageIndirectYIndexed
  | Relative
  | Accumulator
deriving DecidableEq, Repr

/-- Mirrors `Wdc65C02AddressingMode` of `instruction.rs`. -/
inductive Wdc65C02AddressingMode where
  | ZeroPageIndirect
deriving DecidableEq, Repr

/-- Mirrors `AddressingMode` of `instruction.rs`. -/
inductive AddressingMode where
  | Mos6502 (mode : Mos6502AddressingMode)
  | Wdc65C02 (mode : Wdc65C02AddressingMode)
deriving DecidableEq, Repr

/-- Mirrors `Mos6502Opcode` of `instruction.rs`. -/
inductive Mos6502Opcode where
  | Adc | Anc | And | Arr | Asl | Asr
  | Bcc | Bcs | Beq | Bit | Bmi | Bne | Bpl | Brk | Bvc | Bvs
  | Clc | Cld | Cli | Clv | Cmp | Cpx | Cpy
  | Dcp | Dec | Dex | Dey | Eor | Inc | Inx | Iny | Isc
  | Jam | Jmp | Jsr | Las | Lax | Lda | Ldx | Ldy | Lsr
  | Nop | Ora | Pha | Php | Pla | Plp
  | Rla | Rol | Ror | Rra | Rti | Rts
  | Sax | Sbc | Sbx | Sec | Sed | Sei | Sha | Shs | Shx | Shy | Slo | Sre
  | Sta | Stx | Sty | Tax | Tay | Tsx | Txa | Txs | Tya | Xaa
deriving DecidableEq, Repr

/-- Mirrors `Wdc65C02Opcode` of `instruction.rs`. -/
inductive Wdc65C02Opcode where
  | Bra | Phx | Phy | Plx | Ply | Stz | Trb | Tsb | Stp | Wai
deriving DecidableEq, Repr

/-- Mirrors `Opcode` of `instruction.rs`. -/
inductive Opcode where
  | Mos6502 (opcode : Mos6502Opcode)
  | Wdc65C02 (opcode : Wdc65C02Opcode)
deriving DecidableEq, Repr

/-- Mirrors `Mos6502InstructionSet` of `instruction.rs`. -/
structure Mos6502InstructionSet where
  opcode : Opcode
  addressing_mode : Option AddressingMode
deriving DecidableEq, Repr

/-- Mirrors `AddressingMode::is_valid_for_mode` of `instruction.rs`. -/
def AddressingMode.is_valid_for_mode : AddressingMode → Mos6502Kind → Bool
  | .Mos6502 _, _ => true
  | .Wdc65C02 _, .Wdc65C02 => true
  | .Wdc65C02 _, _ => false

/-- Mirrors `Bus` of `lib.rs`. -/
structure Bus where
  address : Nat
  data : Nat
deriving DecidableEq, Repr

/-- Mirrors the `Mos6502` component state of `lib.rs`.  The shared atomic
handles `rdy`, `irq` (its stored boolean) and `nmi` are inlined, the
configured `kind` stands for `config.kind`, and the assigned address space
with RAM mapped over it is the byte function `mem`. -/
structure Mos6502 where
  a : Nat
  x : Nat
  y : Nat
  flags : FlagRegister
  stack : Nat
  instruction_pointer : Nat
  instruction_queue : List Cycle
  bus : Bus
  effective_address : List Nat
  operand : Nat
  rdy : Bool
  irq : Bool
  nmi : NmiFlag
  kind : Mos6502Kind
  mem : Nat → Nat

namespace Mos6502

/-- Replaces the last cycle of a queue, or `none` on an empty queue
(mirroring the `.iter_mut().last().unwrap()` panic). -/
def modifyLastCycle : List Cycle → (Cycle → Cycle) → Option (List Cycle)
  | [], _ => none
  | [c], f => some [f c]
  | c :: rest, f => (modifyLastCycle rest f).map (c :: ·)

/-- Mirrors `Mos6502::push_stack_item` of `instruction.rs`. -/
def push_stack_item (st : Mos6502) (item : MoveSource) : Mos6502 :=
  { st with
    instruction_queue := st.instruction_queue ++
      [⟨BusMode.Write, some (Phi1.SetAddressBus SetAddressBusSource.Stack),
        [Phi2.Move item MoveDestination.Data, Phi2.IncrementStack true]⟩] }

/-- Mirrors `Mos6502::pull_stack_item` of `instruction.rs`: clears the queue
and installs the three-cycle pull sequence. -/
def pull_stack_item (st : Mos6502) (item : MoveDestination) : Mos6502 :=
  { st with
    instruction_queue :=
      [⟨BusMode.Read, none, []⟩,
       ⟨BusMode.Read, none, [Phi2.IncrementStack false]⟩,
       ⟨BusMode.Read, some (Phi1.SetAddressBus SetAddressBusSource.Stack),
        [Phi2.Move MoveSource.Data item]⟩] }

/-- Mirrors `Mos6502::register_indexed_zero_page` of `instruction.rs`
(called only with X or Y, so the source's assertion always passes). -/
def register_indexed_zero_page (st : Mos6502) (register : GeneralPurposeRegister) :
    Mos6502 :=
  { st with
    instruction_queue := st.instruction_queue ++
      [⟨BusMode.Read, some (Phi1.SetAddressBus SetAddressBusSource.InstructionPointer),
        [Phi2.IncrementInstructionPointer,
         Phi2.Move MoveSource.Data MoveDestination.EffectiveAddress]⟩,
       ⟨BusMode.Read, none,
        [Phi2.AddToPointerLikeRegister false ArithmeticOperandInterpretation.Unsigned
          (AddToPointerLikeRegisterSource.Register register)
          PointerLikeRegister.EffectiveAddress]⟩] }

/-- Mirrors `Mos6502::register_indexed_absolute` of `instruction.rs`. -/
def register_indexed_absolute (st : Mos6502) (register : GeneralPurposeRegister) :
    Mos6502 :=
  { st with
    instruction_queue := st.instruction_queue ++
      [⟨BusMode.Read, some (Phi1.SetAddressBus SetAddressBusSource.InstructionPointer),
        [Phi2.IncrementInstructionPointer,
         Phi2.Move MoveSource.Data MoveDestination.EffectiveAddress]⟩,
       ⟨BusMode.Read, some (Phi1.SetAddressBus SetAddressBusSource.InstructionPointer),
        [Phi2.IncrementInstructionPointer,
         Phi2.Move MoveSource.Data MoveDestination.EffectiveAddress,
         Phi2.AddToPointerLikeRegister true ArithmeticOperandInterpretation.Unsigned
           (AddToPointerLikeRegisterSource.Register register)
           PointerLikeRegister.EffectiveAddress]⟩] }

/-- Mirrors `Mos6502::patch_read_maybe_effective_address_dependent` of
`instruction.rs`: implied, accumulator, immediate and relative modes leech
their steps onto the final prelude cycle; other modes append a read cycle
addressed by the effective address. -/
def patch_read_maybe_effective_address_dependent (st : Mos6502)
    (instruction : Mos6502InstructionSet) (steps : List Phi2) : Option Mos6502 :=
  match instruction.addressing_mode with
  | none
  | some (AddressingMode.Mos6502 Mos6502AddressingMode.Accumulator)
  | some (AddressingMode.Mos6502 Mos6502AddressingMode.Immediate)
  | some (AddressingMode.Mos6502 Mos6502AddressingMode.Relative) =>
    (modifyLastCycle st.instruction_queue
        (fun c => { c with phi2 := c.phi2 ++ steps })).map
      (fun q => { st with instruction_queue := q })
  | _ =>
    some { st with
      instruction_queue := st.instruction_queue ++
        [⟨BusMode.Read, some (Phi1.SetAddressBus SetAddressBusSource.EffectiveAddress),
          steps⟩] }

/-- Mirrors `Mos6502::insert_rmw_effective_address_dependent` of
`instruction.rs`: read, dummy write-back, write-back with modification. -/
def insert_rmw_effective_address_dependent (st : Mos6502) (steps : List Phi2) :
    Mos6502 :=
  { st with
    instruction_queue := st.instruction_queue ++
      [⟨BusMode.Read, some (Phi1.SetAddressBus SetAddressBusSource.EffectiveAddress),
        [Phi2.Move MoveSource.Data MoveDestination.Operand]⟩,
       ⟨BusMode.Write, none,
        [Phi2.Move MoveSource.Operand MoveDestination.Data]⟩,
       ⟨BusMode.Write, none,
        steps ++ [Phi2.Move MoveSource.Operand MoveDestination.Data]⟩] }

/-- Mirrors `Mos6502::insert_write_effective_address_dependent` of
`instruction.rs`; the modes without an effective address hit the source's
`unreachable!`. -/
def insert_write_effective_address_dependent (st : Mos6502)
    (instruction : Mos6502InstructionSet) (steps : List Phi2) : Option Mos6502 :=
  match instruction.addressing_mode with
  | none
  | some (AddressingMode.Mos6502 Mos6502AddressingMode.Accumulator)
  | some (AddressingMode.Mos6502 Mos6502AddressingMode.Immediate)
  | some (AddressingMode.Mos6502 Mos6502AddressingMode.Relative) => none
  | _ =>
    some { st with
      instruction_queue := st.instruction_queue ++
        [⟨BusMode.Write, some (Phi1.SetAddressBus SetAddressBusSource.EffectiveAddress),
          steps⟩] }

/-- The addressing-mode prelude of `Mos6502::push_steps_for_instruction`
(`instruction.rs` lines 185-432): pushes the canonical bus-cycle sequence of
the instruction's addressing mode; `none` models the `todo!` of the 65C02
`ZeroPageIndirect` mode. -/
def push_addressing_prelude (st : Mos6502) (instruction : Mos6502InstructionSet) :
    Option Mos6502 :=
  match instruction.addressing_mode with
  | some (AddressingMode.Mos6502 Mos6502AddressingMode.Absolute) =>
    some { st with
      instruction_queue := st.instruction_queue ++
        [⟨BusMode.Read, some (Phi1.SetAddressBus SetAddressBusSource.InstructionPointer),
          [Phi2.IncrementInstructionPointer,
           Phi2.Move MoveSource.Data MoveDestination.EffectiveAddress]⟩,
         ⟨BusMode.Read, some (Phi1.SetAddressBus SetAddressBusSource.InstructionPointer),
          [Phi2.IncrementInstructionPointer,
           Phi2.Move MoveSource.Data MoveDestination.EffectiveAddress]⟩] }
  | some (AddressingMode.Mos6502 Mos6502AddressingMode.Immediate)
  | some (AddressingMode.Mos6502 Mos6502AddressingMode.Relative) =>
    some { st with
      instruction_queue := st.instruction_queue ++
        [⟨BusMode.Read, some (Phi1.SetAddressBus SetAddressBusSource.InstructionPointer),
          [Phi2.IncrementInstructionPointer]⟩] }
  | some (AddressingMode.Mos6502 Mos6502AddressingMode.XIndexedAbsolute) =>
    some (st.register_indexed_absolute GeneralPurposeRegister.X)
  | some (AddressingMode.Mos6502 Mos6502AddressingMode.YIndexedAbsolute) =>
    some (st.register_indexed_absolute GeneralPurposeRegister.Y)
  | some (AddressingMode.Mos6502 Mos6502AddressingMode.AbsoluteIndirect) =>
    some { st with
      instruction_queue := st.instruction_queue ++
        [⟨BusMode.Read, some (Phi1.SetAddressBus SetAddressBusSource.InstructionPointer),
          [Phi2.IncrementInstructionPointer,
           Phi2.Move MoveSource.Data MoveDestination.EffectiveAddress]⟩,
         ⟨BusMode.Read, some (Phi1.SetAddressBus SetAddressBusSource.InstructionPointer),
          [Phi2.IncrementInstructionPointer,
           Phi2.Move MoveSource.Data MoveDestination.EffectiveAddress]⟩,
         ⟨BusMode.Read, some (Phi1.SetAddressBus SetAddressBusSource.EffectiveAddress),
          [Phi2.Move MoveSource.Data MoveDestination.EffectiveAddress,
           Phi2.AddToPointerLikeRegister
             (!st.kind.has_absolute_indirect_page_wrap_errata)
             ArithmeticOperandInterpretation.Unsigned
             (AddToPointerLikeRegisterSource.Constant 1)
             PointerLikeRegister.AddressBus]⟩,
         ⟨BusMode.Read, none,
          [Phi2.Move MoveSource.Data MoveDestination.EffectiveAddress]⟩] }
  | some (AddressingMode.Mos6502 Mos6502AddressingMode.XIndexedZeroPageIndirect) =>
    some { st with
      instruction_queue := st.instruction_queue ++
        [⟨BusMode.Read, some (Phi1.SetAddressBus SetAddressBusSource.InstructionPointer),
          [Phi2.IncrementInstructionPointer,
           Phi2.Move MoveSource.Data MoveDestination.EffectiveAddress]⟩,
         ⟨BusMode.Read, some (Phi1.SetAddressBus SetAddressBusSource.EffectiveAddress),
          [Phi2.AddToPointerLikeRegister false ArithmeticOperandInterpretation.Unsigned
            (AddToPointerLikeRegisterSource.Register GeneralPurposeRegister.X)
            PointerLikeRegister.AddressBus]⟩,
         ⟨BusMode.Read, none,
          [Phi2.Move MoveSource.Data MoveDestination.EffectiveAddress,
           Phi2.AddToPointerLikeRegister false ArithmeticOperandInterpretation.Unsigned
             (AddToPointerLikeRegisterSource.Constant 1)
             PointerLikeRegister.AddressBus]⟩,
         ⟨BusMode.Read, none,
          [Phi2.Move MoveSource.Data MoveDestination.EffectiveAddress]⟩] }
  | some (AddressingMode.Mos6502 Mos6502AddressingMode.ZeroPageIndirectYIndexed) =>
    some { st with
      instruction_queue := st.instruction_queue ++
        [⟨BusMode.Read, some (Phi1.SetAddressBus SetAddressBusSource.InstructionPointer),
          [Phi2.IncrementInstructionPointer,
           Phi2.Move MoveSource.Data MoveDestination.EffectiveAddress]⟩,
         ⟨BusMode.Read, some (Phi1.SetAddressBus SetAddressBusSource.EffectiveAddress),
          [Phi2.Move MoveSource.Data MoveDestination.EffectiveAddress,
           Phi2.AddToPointerLikeRegister false ArithmeticOperandInterpretation.Unsigned
             (AddToPointerLikeRegisterSource.Constant 1)
             PointerLikeRegister.AddressBus]⟩,
         ⟨BusMode.Read, none,
          [Phi2.Move MoveSource.Data MoveDestination.EffectiveAddress,
           Phi2.AddToPointerLikeRegister true ArithmeticOperandInterpretation.Unsigned
             (AddToPointerLikeRegisterSource.Register GeneralPurposeRegister.Y)
             PointerLikeRegister.EffectiveAddress]⟩] }
  | some (AddressingMode.Mos6502 Mos6502AddressingMode.XIndexedZeroPage) =>
    some (st.register_indexed_zero_page GeneralPurposeRegister.X)
  | some (AddressingMode.Mos6502 Mos6502AddressingMode.YIndexedZeroPage) =>
    some (st.register_indexed_zero_page GeneralPurposeRegister.Y)
  | some (AddressingMode.Mos6502 Mos6502AddressingMode.ZeroPage) =>
    some { st with
      instruction_queue := st.instruction_queue ++
        [⟨BusMode.Read, some (Phi1.SetAddressBus SetAddressBusSource.InstructionPointer),
          [Phi2.IncrementInstructionPointer,
           Phi2.Move MoveSource.Data MoveDestination.EffectiveAddress]⟩] }
  | some (AddressingMode.Mos6502 Mos6502AddressingMode.Accumulator) =>
    some { st with instruction_queue := st.instruction_queue ++ [Cycle.dummy] }
  | some (AddressingMode.Wdc65C02 Wdc65C02AddressingMode.ZeroPageIndirect) => none
  | none =>
    some { st with instruction_queue := st.instruction_queue ++ [Cycle.dummy] }

/-- Whether the branch of a conditional-branch opcode is taken on the
current flags, mirroring the `branch_taken` match of `instruction.rs`
(lines 1107-1118); `none` is the source's `unreachable!` for non-branches. -/
def branch_taken (st : Mos6502) : Opcode → Option Bool
  | Opcode.Mos6502 Mos6502Opcode.Bvs => some st.flags.overflow
  | Opcode.Mos6502 Mos6502Opcode.Bvc => some (!st.flags.overflow)
  | Opcode.Mos6502 Mos6502Opcode.Beq => some st.flags.zero
  | Opcode.Mos6502 Mos6502Opcode.Bne => some (!st.flags.zero)
  | Opcode.Mos6502 Mos6502Opcode.Bcs => some st.flags.carry
  | Opcode.Mos6502 Mos6502Opcode.Bcc => some (!st.flags.carry)
  | Opcode.Mos6502 Mos6502Opcode.Bmi => some st.flags.negative
  | Opcode.Mos6502 Mos6502Opcode.Bpl => some (!st.flags.negative)
  | Opcode.Wdc65C02 Wdc65C02Opcode.Bra => some true
  | _ => none

/-- The branch arm of `Mos6502::push_steps_for_instruction`
(`instruction.rs` lines 1098-1140). -/
def push_branch_tail (st : Mos6502) (instruction : Mos6502InstructionSet) :
    Option Mos6502 :=
  (branch_taken st instruction.opcode).bind fun taken =>
    if taken then
      (st.patch_read_maybe_effective_address_dependent instruction
          [Phi2.Move MoveSource.Data MoveDestination.Operand]).map
        fun st1 =>
          { st1 with
            instruction_queue := st1.instruction_queue ++
              [⟨BusMode.Read, none,
                [Phi2.AddToPointerLikeRegister true
                  ArithmeticOperandInterpretation.Signed
                  AddToPointerLikeRegisterSource.Operand
                  PointerLikeRegister.InstructionPointer]⟩] }
    else
      some st

/-- The operation tail of `Mos6502::push_steps_for_instruction`
(`instruction.rs` lines 434-1178): one arm per opcode; `none` models the
source's `todo!` for the unimplemented (mostly undocumented) opcodes. -/
def push_opcode_tail (st : Mos6502) (instruction : Mos6502InstructionSet) :
    Option Mos6502 :=
  match instruction.opcode with
  | Opcode.Mos6502 Mos6502Opcode.Adc =>
    st.patch_read_maybe_effective_address_dependent instruction
      [Phi2.Move MoveSource.Data MoveDestination.Operand, Phi2.Add false]
  | Opcode.Mos6502 Mos6502Opcode.Anc => none
  | Opcode.Mos6502 Mos6502Opcode.And =>
    st.patch_read_maybe_effective_address_dependent instruction
      [Phi2.Move MoveSource.Data MoveDestination.Operand, Phi2.And true]
  | Opcode.Mos6502 Mos6502Opcode.Arr => none
  | Opcode.Mos6502 Mos6502Opcode.Asl =>
    if instruction.addressing_mode =
        some (AddressingMode.Mos6502 Mos6502AddressingMode.Accumulator) then
      st.patch_read_maybe_effective_address_dependent instruction
        [Phi2.Shift ShiftDirection.Left false true]
    else
      some (st.insert_rmw_effective_address_dependent
        [Phi2.Shift ShiftDirection.Left false false])
  | Opcode.Mos6502 Mos6502Opcode.Asr => none
  | Opcode.Mos6502 Mos6502Opcode.Bit =>
    st.patch_read_maybe_effective_address_dependent instruction
      [Phi2.Move MoveSource.Data MoveDestination.Operand, Phi2.And false]
  | Opcode.Mos6502 Mos6502Opcode.Brk => none
  | Opcode.Mos6502 Mos6502Opcode.Clc =>
    st.patch_read_maybe_effective_address_dependent instruction
      [Phi2.SetFlag Flag.Carry false]
  | Opcode.Mos6502 Mos6502Opcode.Cld =>
    st.patch_read_maybe_effective_address_dependent instruction
      [Phi2.SetFlag Flag.Decimal false]
  | Opcode.Mos6502 Mos6502Opcode.Cli =>
    st.patch_read_maybe_effective_address_dependent instruction
      [Phi2.SetFlag Flag.InterruptDisable false]
  | Opcode.Mos6502 Mos6502Opcode.Clv =>
    st.patch_read_maybe_effective_address_dependent instruction
      [Phi2.SetFlag Flag.Overflow false]
  | Opcode.Mos6502 Mos6502Opcode.Cmp =>
    st.patch_read_maybe_effective_address_dependent instruction
      [Phi2.Move MoveSource.Data MoveDestination.Operand,
       Phi2.Compare GeneralPurposeRegister.A]
  | Opcode.Mos6502 Mos6502Opcode.Cpx =>
    st.patch_read_maybe_effective_address_dependent instruction
      [Phi2.Move MoveSource.Data MoveDestination.Operand,
       Phi2.Compare GeneralPurposeRegister.X]
  | Opcode.Mos6502 Mos6502Opcode.Cpy =>
    st.patch_read_maybe_effective_address_dependent instruction
      [Phi2.Move MoveSource.Data MoveDestination.Operand,
       Phi2.Compare GeneralPurposeRegister.Y]
  | Opcode.Mos6502 Mos6502Opcode.Dcp => none
  | Opcode.Mos6502 Mos6502Opcode.Dec =>
    some (st.insert_rmw_effective_address_dependent
      [Phi2.Increment IncrementOperand.Operand true])
  | Opcode.Mos6502 Mos6502Opcode.Dex =>
    st.patch_read_maybe_effective_address_dependent instruction
      [Phi2.Increment IncrementOperand.X true]
  | Opcode.Mos6502 Mos6502Opcode.Dey =>
    st.patch_read_maybe_effective_address_dependent instruction
      [Phi2.Increment IncrementOperand.Y true]
  | Opcode.Mos6502 Mos6502Opcode.Eor =>
    st.patch_read_maybe_effective_address_dependent instruction
      [Phi2.Move MoveSource.Data MoveDestination.Operand, Phi2.Xor]
  | Opcode.Mos6502 Mos6502Opcode.Inc =>
    some (st.insert_rmw_effective_address_dependent
      [Phi2.Increment IncrementOperand.Operand false])
  | Opcode.Mos6502 Mos6502Opcode.Inx =>
    st.patch_read_maybe_effective_address_dependent instruction
      [Phi2.Increment IncrementOperand.X false]
  | Opcode.Mos6502 Mos6502Opcode.Iny =>
    st.patch_read_maybe_effective_address_dependent instruction
      [Phi2.Increment IncrementOperand.Y false]
  | Opcode.Mos6502 Mos6502Opcode.Isc => none
  | Opcode.Mos6502 Mos6502Opcode.Jam => none
  | Opcode.Mos6502 Mos6502Opcode.Jmp =>
    (modifyLastCycle st.instruction_queue
        (fun c => { c with
          phi2 := c.phi2 ++ [Phi2.LoadInstructionPointerFromEffectiveAddress] })).map
      (fun q => { st with instruction_queue := q })
  | Opcode.Mos6502 Mos6502Opcode.Jsr =>
    some { st with
      instruction_queue :=
        [⟨BusMode.Read, some (Phi1.SetAddressBus SetAddressBusSource.InstructionPointer),
          [Phi2.IncrementInstructionPointer,
           Phi2.Move MoveSource.Data MoveDestination.EffectiveAddress]⟩,
         ⟨BusMode.Write, some (Phi1.SetAddressBus SetAddressBusSource.Stack),
          [Phi2.Move (MoveSource.InstructionPointer 1) MoveDestination.Data,
           Phi2.IncrementStack true]⟩,
         ⟨BusMode.Write, some (Phi1.SetAddressBus SetAddressBusSource.Stack),
          [Phi2.Move (MoveSource.InstructionPointer 0) MoveDestination.Data,
           Phi2.IncrementStack true]⟩,
         ⟨BusMode.Read, some (Phi1.SetAddressBus SetAddressBusSource.InstructionPointer),
          [Phi2.IncrementInstructionPointer,
           Phi2.Move MoveSource.Data MoveDestination.EffectiveAddress]⟩,
         ⟨BusMode.Read, none,
          [Phi2.LoadInstructionPointerFromEffectiveAddress]⟩] }
  | Opcode.Mos6502 Mos6502Opcode.Las => none
  | Opcode.Mos6502 Mos6502Opcode.Lax => none
  | Opcode.Mos6502 Mos6502Opcode.Lda =>
    st.patch_read_maybe_effective_address_dependent instruction
      [Phi2.Move MoveSource.Data (MoveDestination.Register GeneralPurposeRegister.A true)]
  | Opcode.Mos6502 Mos6502Opcode.Ldx =>
    st.patch_read_maybe_effective_address_dependent instruction
      [Phi2.Move MoveSource.Data (MoveDestination.Register GeneralPurposeRegister.X true)]
  | Opcode.Mos6502 Mos6502Opcode.Ldy =>
    st.patch_read_maybe_effective_address_dependent instruction
      [Phi2.Move MoveSource.Data (MoveDestination.Register GeneralPurposeRegister.Y true)]
  | Opcode.Mos6502 Mos6502Opcode.Lsr =>
    if instruction.addressing_mode =
        some (AddressingMode.Mos6502 Mos6502AddressingMode.Accumulator) then
      st.patch_read_maybe_effective_address_dependent instruction
        [Phi2.Shift ShiftDirection.Right false true]
    else
      some (st.insert_rmw_effective_address_dependent
        [Phi2.Shift ShiftDirection.Right false false])
  | Opcode.Mos6502 Mos6502Opcode.Nop => some st
  | Opcode.Mos6502 Mos6502Opcode.Ora =>
    st.patch_read_maybe_effective_address_dependent instruction
      [Phi2.Move MoveSource.Data MoveDestination.Operand, Phi2.Or]
  | Opcode.Mos6502 Mos6502Opcode.Pha =>
    some (st.push_stack_item (MoveSource.Register GeneralPurposeRegister.A))
  | Opcode.Mos6502 Mos6502Opcode.Php =>
    some (st.push_stack_item (MoveSource.Flags true))
  | Opcode.Mos6502 Mos6502Opcode.Pla =>
    some (st.pull_stack_item (MoveDestination.Register GeneralPurposeRegister.A true))
  | Opcode.Mos6502 Mos6502Opcode.Plp =>
    some (st.pull_stack_item MoveDestination.Flags)
  | Opcode.Mos6502 Mos6502Opcode.Rla => none
  | Opcode.Mos6502 Mos6502Opcode.Rol =>
    if instruction.addressing_mode =
        some (AddressingMode.Mos6502 Mos6502AddressingMode.Accumulator) then
      st.patch_read_maybe_effective_address_dependent instruction
        [Phi2.Shift ShiftDirection.Left true true]
    else
      some (st.insert_rmw_effective_address_dependent
        [Phi2.Shift ShiftDirection.Left true false])
  | Opcode.Mos6502 Mos6502Opcode.Ror =>
    if instruction.addressing_mode =
        some (AddressingMode.Mos6502 Mos6502AddressingMode.Accumulator) then
      st.patch_read_maybe_effective_address_dependent instruction
        [Phi2.Shift ShiftDirection.Right true true]
    else
      some (st.insert_rmw_effective_address_dependent
        [Phi2.Shift ShiftDirection.Right true false])
  | Opcode.Mos6502 Mos6502Opcode.Rra => none
  | Opcode.Mos6502 Mos6502Opcode.Rti =>
    some { st with
      instruction_queue :=
        [⟨BusMode.Read, none, [Phi2.IncrementStack false]⟩,
         ⟨BusMode.Read, some (Phi1.SetAddressBus SetAddressBusSource.Stack),
          [Phi2.Move MoveSource.Data MoveDestination.Flags,
           Phi2.IncrementStack false]⟩,
         ⟨BusMode.Read, some (Phi1.SetAddressBus SetAddressBusSource.Stack),
          [Phi2.Move MoveSource.Data MoveDestination.EffectiveAddress,
           Phi2.IncrementStack false]⟩,
         ⟨BusMode.Read, some (Phi1.SetAddressBus SetAddressBusSource.Stack),
          [Phi2.Move MoveSource.Data MoveDestination.EffectiveAddress]⟩,
         ⟨BusMode.Read, none,
          [Phi2.LoadInstructionPointerFromEffectiveAddress]⟩] }
  | Opcode.Mos6502 Mos6502Opcode.Rts =>
    some { st with
      instruction_queue :=
        [⟨BusMode.Read, none, [Phi2.IncrementStack false]⟩,
         ⟨BusMode.Read, some (Phi1.SetAddressBus SetAddressBusSource.Stack),
          [Phi2.Move MoveSource.Data MoveDestination.EffectiveAddress,
           Phi2.IncrementStack false]⟩,
         ⟨BusMode.Read, some (Phi1.SetAddressBus SetAddressBusSource.Stack),
          [Phi2.Move MoveSource.Data MoveDestination.EffectiveAddress]⟩,
         ⟨BusMode.Read, none,
          [Phi2.LoadInstructionPointerFromEffectiveAddress]⟩,
         ⟨BusMode.Read, none, [Phi2.IncrementInstructionPointer]⟩] }
  | Opcode.Mos6502 Mos6502Opcode.Sax => none
  | Opcode.Mos6502 Mos6502Opcode.Sbc =>
    st.patch_read_maybe_effective_address_dependent instruction
      [Phi2.Move MoveSource.Data MoveDestination.Operand, Phi2.Add true]
  | Opcode.Mos6502 Mos6502Opcode.Sbx => none
  | Opcode.Mos6502 Mos6502Opcode.Sec =>
    st.patch_read_maybe_effective_address_dependent instruction
      [Phi2.SetFlag Flag.Carry true]
  | Opcode.Mos6502 Mos6502Opcode.Sed =>
    st.patch_read_maybe_effective_address_dependent instruction
      [Phi2.SetFlag Flag.Decimal true]
  | Opcode.Mos6502 Mos6502Opcode.Sei =>
    st.patch_read_maybe_effective_address_dependent instruction
      [Phi2.SetFlag Flag.InterruptDisable true]
  | Opcode.Mos6502 Mos6502Opcode.Sha => none
  | Opcode.Mos6502 Mos6502Opcode.Shs => none
  | Opcode.Mos6502 Mos6502Opcode.Shx => none
  | Opcode.Mos6502 Mos6502Opcode.Shy => none
  | Opcode.Mos6502 Mos6502Opcode.Slo => none
  | Opcode.Mos6502 Mos6502Opcode.Sre => none
  | Opcode.Mos6502 Mos6502Opcode.Sta =>
    st.insert_write_effective_address_dependent instruction
      [Phi2.Move (MoveSource.Register GeneralPurposeRegister.A) MoveDestination.Data]
  | Opcode.Mos6502 Mos6502Opcode.Stx =>
    st.insert_write_effective_address_dependent instruction
      [Phi2.Move (MoveSource.Register GeneralPurposeRegister.X) MoveDestination.Data]
  | Opcode.Mos6502 Mos6502Opcode.Sty =>
    st.insert_write_effective_address_dependent instruction
      [Phi2.Move (MoveSource.Register GeneralPurposeRegister.Y) MoveDestination.Data]
  | Opcode.Mos6502 Mos6502Opcode.Tax =>
    st.patch_read_maybe_effective_address_dependent instruction
      [Phi2.Move (MoveSource.Register GeneralPurposeRegister.A)
        (MoveDestination.Register GeneralPurposeRegister.X true)]
  | Opcode.Mos6502 Mos6502Opcode.Tay =>
    st.patch_read_maybe_effective_address_dependent instruction
      [Phi2.Move (MoveSource.Register GeneralPurposeRegister.A)
        (MoveDestination.Register GeneralPurposeRegister.Y true)]
  | Opcode.Mos6502 Mos6502Opcode.Tsx =>
    st.patch_read_maybe_effective_address_dependent instruction
      [Phi2.Move MoveSource.Stack
        (MoveDestination.Register GeneralPurposeRegister.X true)]
  | Opcode.Mos6502 Mos6502Opcode.Txa =>
    st.patch_read_maybe_effective_address_dependent instruction
      [Phi2.Move (MoveSource.Register GeneralPurposeRegister.X)
        (MoveDestination.Register GeneralPurposeRegister.A true)]
  | Opcode.Mos6502 Mos6502Opcode.Txs =>
    st.patch_read_maybe_effective_address_dependent instruction
      [Phi2.Move (MoveSource.Register GeneralPurposeRegister.X) MoveDestination.Stack]
  | Opcode.Mos6502 Mos6502Opcode.Tya =>
    st.patch_read_maybe_effective_address_dependent instruction
      [Phi2.Move (MoveSource.Register GeneralPurposeRegister.Y)
        (MoveDestination.Register GeneralPurposeRegister.A true)]
  | Opcode.Mos6502 Mos6502Opcode.Xaa => none
  | Opcode.Mos6502 Mos6502Opcode.Bvs => push_branch_tail st instruction
  | Opcode.Mos6502 Mos6502Opcode.Bvc => push_branch_tail st instruction
  | Opcode.Mos6502 Mos6502Opcode.Beq => push_branch_tail st instruction
  | Opcode.Mos6502 Mos6502Opcode.Bne => push_branch_tail st instruction
  | Opcode.Mos6502 Mos6502Opcode.Bcs => push_branch_tail st instruction
  | Opcode.Mos6502 Mos6502Opcode.Bcc => push_branch_tail st instruction
  | Opcode.Mos6502 Mos6502Opcode.Bmi => push_branch_tail st instruction
  | Opcode.Mos6502 Mos6502Opcode.Bpl => push_branch_tail st instruction
  | Opcode.Wdc65C02 Wdc65C02Opcode.Bra => push_branch_tail st instruction
  | Opcode.Wdc65C02 Wdc65C02Opcode.Phx =>
    some (st.push_stack_item (MoveSource.Register GeneralPurposeRegister.X))
  | Opcode.Wdc65C02 Wdc65C02Opcode.Phy =>
    some (st.push_stack_item (MoveSource.Register GeneralPurposeRegister.Y))
  | Opcode.Wdc65C02 Wdc65C02Opcode.Plx => none
  | Opcode.Wdc65C02 Wdc65C02Opcode.Ply => none
  | Opcode.Wdc65C02 Wdc65C02Opcode.Stz =>
    st.insert_write_effective_address_dependent instruction
      [Phi2.Move (MoveSource.Constant 0) MoveDestination.Data]
  | Opcode.Wdc65C02 Wdc65C02Opcode.Trb => none
  | Opcode.Wdc65C02 Wdc65C02Opcode.Tsb => none
  | Opcode.Wdc65C02 Wdc65C02Opcode.Stp => none
  | Opcode.Wdc65C02 Wdc65C02Opcode.Wai => none

/-- Mirrors `Mos6502::push_steps_for_instruction` of `instruction.rs`:
addressing-mode prelude followed by the per-opcode tail. -/
def push_steps_for_instruction (st : Mos6502) (instruction : Mos6502InstructionSet) :
    Option Mos6502 :=
  (push_addressing_prelude st instruction).bind
    (fun st1 => push_opcode_tail st1 instruction)

/-- Modelled from the spec: `src/definition/mos6502/src/decoder.rs` is not
among the provided sources; §4.6.1 of the spec requires the four decoder
tables to reproduce the published 6502 opcode matrix.  Only the two opcode
bytes exercised by the spec's scenarios S3/S4 are modelled here, straight
from that matrix: `0x6C` = `JMP` absolute-indirect and `0xF0` = `BEQ`
relative (identical on every kind); every other byte is left undecoded. -/
def decode (_kind : Mos6502Kind) (byte : Nat) : Option Mos6502InstructionSet :=
  if byte = 0x6c then
    some ⟨Opcode.Mos6502 Mos6502Opcode.Jmp,
          some (AddressingMode.Mos6502 Mos6502AddressingMode.AbsoluteIndirect)⟩
  else if byte = 0xf0 then
    some ⟨Opcode.Mos6502 Mos6502Opcode.Beq,
          some (AddressingMode.Mos6502 Mos6502AddressingMode.Relative)⟩
  else
    none

/-- Reads a general-purpose register, mirroring the register matches of
`Mos6502::synchronize`. -/
def gpr (st : Mos6502) : GeneralPurposeRegister → Nat
  | GeneralPurposeRegister.A => st.a
  | GeneralPurposeRegister.X => st.x
  | GeneralPurposeRegister.Y => st.y

/-- The `u16` held by the effective-address scratch vector
(`u16::from_le_bytes`), or `none` for the source's `unreachable!` on any
other length. -/
def eaValue (st : Mos6502) : Option Nat :=
  match st.effective_address with
  | [lo] => some lo
  | [lo, hi] => some (lo + 256 * hi)
  | _ => none

/-- The most significant bit of a byte: `(v as i8).is_negative()`. -/
def msb8 (v : Nat) : Bool :=
  decide (128 ≤ v % 256)

/-- A byte reinterpreted as `i8` (then sign-extended), as in
`(value as i8) as i16`. -/
def toI8 (v : Nat) : Int :=
  if v % 256 < 128 then (v % 256 : Int) else (v % 256 : Int) - 256

/-- One phase-2 micro-operation, mirroring the `match step` interpreter of
`Mos6502::synchronize` (`lib.rs` lines 373-766).  `none` models the
source's panics (`unreachable!`, decoder assertion, `ArrayVec` overflow) and
the `todo!`s reachable through instruction expansion. -/
def execPhi2 (st : Mos6502) : Phi2 → Option Mos6502
  | Phi2.AddToPointerLikeRegister insert_carry_cycle interpretation source destination =>
    let value : Nat :=
      match source with
      | AddToPointerLikeRegisterSource.Register register => gpr st register
      | AddToPointerLikeRegisterSource.Constant v => v
      | AddToPointerLikeRegisterSource.Operand => st.operand
    let addressOpt : Option Nat :=
      match destination with
      | PointerLikeRegister.AddressBus => some st.bus.address
      | PointerLikeRegister.EffectiveAddress => eaValue st
      | PointerLikeRegister.InstructionPointer => some st.instruction_pointer
    addressOpt.bind fun address =>
      let address_high := address / 256 % 256
      let resultCarry : Nat × Int :=
        match interpretation with
        | ArithmeticOperandInterpretation.Unsigned =>
          let result := (address + value) % 65536
          (result, if result / 256 % 256 ≠ address_high then 1 else 0)
        | ArithmeticOperandInterpretation.Signed =>
          let sval := toI8 value
          let result := (((address : Int) + sval).emod 65536).toNat
          (result,
           if result / 256 % 256 ≠ address_high then
             (if sval < 0 then -1 else 1) else 0)
      let result_low := resultCarry.1 % 256
      let carry := resultCarry.2
      -- the high byte is left stale so that the inserted extra cycle can fix it
      let writtenOpt : Option Mos6502 :=
        match destination with
        | PointerLikeRegister.AddressBus =>
          some { st with bus := { st.bus with address := result_low + 256 * address_high } }
        | PointerLikeRegister.InstructionPointer =>
          some { st with instruction_pointer := result_low + 256 * address_high }
        | PointerLikeRegister.EffectiveAddress =>
          match st.effective_address with
          | [_] => some { st with effective_address := [result_low] }
          | [_, _] => some { st with effective_address := [result_low, address_high] }
          | _ => none
      writtenOpt.map fun st1 =>
        if carry ≠ 0 && insert_carry_cycle then
          { st1 with
            instruction_queue :=
              ⟨BusMode.Read, none,
               [Phi2.AddCarryToPointerLikeRegister destination carry]⟩ ::
              st1.instruction_queue }
        else st1
  | Phi2.AddCarryToPointerLikeRegister register carry =>
    let addressOpt : Option Nat :=
      match register with
      | PointerLikeRegister.AddressBus => some st.bus.address
      | PointerLikeRegister.InstructionPointer => some st.instruction_pointer
      | PointerLikeRegister.EffectiveAddress =>
        match st.effective_address with
        | [lo, hi] => some (lo + 256 * hi)
        | _ => none
    addressOpt.bind fun address =>
      let address_low := address % 256
      let address_high := address / 256 % 256
      let result := (((address_high : Int) + carry).emod 256).toNat
      match register with
      | PointerLikeRegister.AddressBus =>
        some { st with bus := { st.bus with address := address_low + 256 * result } }
      | PointerLikeRegister.EffectiveAddress =>
        some { st with effective_address := [address_low, result] }
      | PointerLikeRegister.InstructionPointer =>
        some { st with instruction_pointer := address_low + 256 * result }
  | Phi2.Move source destination =>
    let valueOpt : Option Nat :=
      match source with
      | MoveSource.Register register => some (gpr st register)
      | MoveSource.Operand => some st.operand
      | MoveSource.Stack => some st.stack
      | MoveSource.Data => some st.bus.data
      | MoveSource.Constant v => some v
      | MoveSource.Flags break_ => some (st.flags.to_byte break_)
      | MoveSource.InstructionPointer offset =>
        if offset = 0 then some (st.instruction_pointer % 256)
        else if offset = 1 then some (st.instruction_pointer / 256 % 256)
        else none
    valueOpt.bind fun value =>
      match destination with
      | MoveDestination.Register register update_nz =>
        let flags :=
          if update_nz then
            { st.flags with negative := msb8 value, zero := decide (value % 256 = 0) }
          else st.flags
        match register with
        | GeneralPurposeRegister.A => some { st with a := value, flags := flags }
        | GeneralPurposeRegister.X => some { st with x := value, flags := flags }
        | GeneralPurposeRegister.Y => some { st with y := value, flags := flags }
      | MoveDestination.Operand => some { st with operand := value }
      | MoveDestination.Stack => some { st with stack := value }
      | MoveDestination.EffectiveAddress =>
        if st.effective_address.length < 2 then
          some { st with effective_address := st.effective_address ++ [value] }
        else none
      | MoveDestination.Opcode =>
        match decode st.kind st.bus.data with
        | none => none
        | some instruction =>
          match instruction.addressing_mode with
          | none => push_steps_for_instruction st instruction
          | some mode =>
            if mode.is_valid_for_mode st.kind then
              push_steps_for_instruction st instruction
            else none
      | MoveDestination.Data => some { st with bus := { st.bus with data := value } }
      | MoveDestination.Flags => some { st with flags := FlagRegister.from_byte value }
  | Phi2.SetFlag flag value =>
    some { st with flags :=
      match flag with
      | Flag.Carry => { st.flags with carry := value }
      | Flag.Zero => { st.flags with zero := value }
      | Flag.Overflow => { st.flags with overflow := value }
      | Flag.Negative => { st.flags with negative := value }
      | Flag.Decimal => { st.flags with decimal := value }
      | Flag.InterruptDisable => { st.flags with interrupt_disable := value } }
  | Phi2.LoadInstructionPointerFromEffectiveAddress =>
    match st.effective_address with
    | [lo] => some { st with instruction_pointer := lo, effective_address := [] }
    | [lo, hi] =>
      some { st with instruction_pointer := lo + 256 * hi, effective_address := [] }
    | _ => none
  | Phi2.Increment operand subtract =>
    let v :=
      match operand with
      | IncrementOperand.X => st.x
      | IncrementOperand.Y => st.y
      | IncrementOperand.Operand => st.operand
    let v1 := if subtract then (v + 255) % 256 else (v + 1) % 256
    let flags := { st.flags with negative := msb8 v1, zero := decide (v1 = 0) }
    match operand with
    | IncrementOperand.X => some { st with x := v1, flags := flags }
    | IncrementOperand.Y => some { st with y := v1, flags := flags }
    | IncrementOperand.Operand => some { st with operand := v1, flags := flags }
  | Phi2.Compare register =>
    let value := gpr st register
    let result := (value + 256 - st.operand % 256) % 256
    let borrow := decide (value % 256 < st.operand % 256)
    some { st with flags :=
      { st.flags with
        carry := !borrow
        zero := decide (result = 0)
        negative := msb8 result } }
  | Phi2.IncrementStack subtract =>
    some { st with stack := if subtract then (st.stack + 255) % 256 else (st.stack + 1) % 256 }
  | Phi2.IncrementInstructionPointer =>
    some { st with instruction_pointer := (st.instruction_pointer + 1) % 65536 }
  | Phi2.And writeback =>
    let result := st.a &&& st.operand
    if writeback then
      some { st with
        a := result
        flags := { st.flags with
          zero := decide (result = 0)
          negative := msb8 result } }
    else
      some { st with flags :=
        { st.flags with
          zero := decide (result = 0)
          negative := msb8 st.operand
          overflow := decide (st.operand &&& 64 ≠ 0) } }
  | Phi2.Or =>
    let result := st.a ||| st.operand
    some { st with
      a := result
      flags := { st.flags with zero := decide (result = 0), negative := msb8 result } }
  | Phi2.Xor =>
    let result := st.a ^^^ st.operand
    some { st with
      a := result
      flags := { st.flags with zero := decide (result = 0), negative := msb8 result } }
  | Phi2.Shift direction rotate a_is_operand =>
    let v := if a_is_operand then st.a else st.operand
    let shift_input : Bool := if rotate then st.flags.carry else false
    let outV : Bool × Nat :=
      match direction with
      | ShiftDirection.Left =>
        (decide (v &&& 128 ≠ 0), (v * 2) % 256 ||| (if shift_input then 1 else 0))
      | ShiftDirection.Right =>
        (decide (v &&& 1 ≠ 0), v % 256 / 2 ||| (if shift_input then 128 else 0))
    let v1 := outV.2
    let flags := { st.flags with
      carry := outV.1
      zero := decide (v1 = 0)
      negative := msb8 v1 }
    if a_is_operand then some { st with a := v1, flags := flags }
    else some { st with operand := v1, flags := flags }
  | Phi2.Add invert_operand =>
    let operand := if invert_operand then 255 - st.operand % 256 else st.operand % 256
    let first := st.a % 256 + operand
    let first_result := first % 256
    let first_carry := decide (256 ≤ first)
    let second := first_result + (if st.flags.carry then 1 else 0)
    let second_result := second % 256
    let second_carry := decide (256 ≤ second)
    some { st with
      a := second_result
      flags := { st.flags with
        overflow := (msb8 st.a == msb8 operand) && !(msb8 st.a == msb8 second_result)
        carry := first_carry || second_carry
        negative := msb8 second_result
        zero := decide (second_result = 0) } }

/-- Runs the phase-2 steps of one cycle strictly in order, mirroring the
`for step in current_cycle.phi2` loop. -/
def execPhi2List (st : Mos6502) : List Phi2 → Option Mos6502
  | [] => some st
  | step :: rest => (execPhi2 st step).bind (execPhi2List · rest)

/-- Mirrors the `match current_cycle.phi1` of `Mos6502::synchronize`
(`lib.rs` lines 319-354): drives the address bus; the
effective-address variant also clears the scratch vector. -/
def applyPhi1 (st : Mos6502) : Option Phi1 → Option Mos6502
  | some (Phi1.SetAddressBus SetAddressBusSource.InstructionPointer) =>
    some { st with bus := { st.bus with address := st.instruction_pointer } }
  | some (Phi1.SetAddressBus SetAddressBusSource.EffectiveAddress) =>
    match st.effective_address with
    | [lo] =>
      some { st with bus := { st.bus with address := lo }, effective_address := [] }
    | [lo, hi] =>
      some { st with bus := { st.bus with address := lo + 256 * hi },
                     effective_address := [] }
    | _ => none
  | some (Phi1.SetAddressBus (SetAddressBusSource.Constant value)) =>
    some { st with bus := { st.bus with address := value } }
  | some (Phi1.SetAddressBus SetAddressBusSource.Stack) =>
    some { st with bus := { st.bus with address := st.stack ||| STACK_BASE_ADDRESS } }
  | none => some st

/-- The six-cycle sequence the interrupt poll appends when an NMI edge is
latched (`lib.rs` lines 789-859): dummy fetch, push PC high, push PC low,
push flags with `break_ = false`, read the NMI vector low byte, read its
high byte and load the instruction pointer. -/
def nmi_interrupt_sequence : List Cycle :=
  [⟨BusMode.Read, some (Phi1.SetAddressBus SetAddressBusSource.InstructionPointer), []⟩,
   ⟨BusMode.Write, some (Phi1.SetAddressBus SetAddressBusSource.Stack),
    [Phi2.Move (MoveSource.InstructionPointer 1) MoveDestination.Data,
     Phi2.IncrementStack true]⟩,
   ⟨BusMode.Write, some (Phi1.SetAddressBus SetAddressBusSource.Stack),
    [Phi2.Move (MoveSource.InstructionPointer 0) MoveDestination.Data,
     Phi2.IncrementStack true]⟩,
   ⟨BusMode.Write, some (Phi1.SetAddressBus SetAddressBusSource.Stack),
    [Phi2.Move (MoveSource.Flags false) MoveDestination.Data,
     Phi2.IncrementStack true]⟩,
   ⟨BusMode.Read, some (Phi1.SetAddressBus (SetAddressBusSource.Constant NMI_VECTOR)),
    [Phi2.Move MoveSource.Data MoveDestination.EffectiveAddress]⟩,
   ⟨BusMode.Read, some (Phi1.SetAddressBus (SetAddressBusSource.Constant (NMI_VECTOR + 1))),
    [Phi2.Move MoveSource.Data MoveDestination.EffectiveAddress,
     Phi2.LoadInstructionPointerFromEffectiveAddress]⟩]

/-- The interrupt poll at the end of a cycle (`lib.rs` lines 787-861):
only when the kind supports interrupts and the queue is empty, and only the
NMI latch is consulted (read-and-clear); the source never polls the IRQ
line here. -/
def interrupt_poll (st : Mos6502) : Mos6502 :=
  if st.kind.supports_interrupts && st.instruction_queue.isEmpty then
    let rn := st.nmi.interrupt_required
    if rn.1 then
      { st with nmi := rn.2, instruction_queue := nmi_interrupt_sequence }
    else
      { st with nmi := rn.2 }
  else st

/-- The synthesized opcode-fetch cycle used when the queue is empty
(`lib.rs` lines 304-317). -/
def opcode_fetch_cycle : Cycle :=
  ⟨BusMode.Read, some (Phi1.SetAddressBus SetAddressBusSource.InstructionPointer),
   [Phi2.IncrementInstructionPointer,
    Phi2.Move MoveSource.Data MoveDestination.Opcode]⟩

/-- The committed part of one quantum (after the rdy gate): phase-2 steps,
the write-back of a write cycle through the address space, then the
interrupt poll. -/
def run_cycle_body (st : Mos6502) (cycle : Cycle) : Option Mos6502 :=
  (execPhi2List st cycle.phi2).map fun st1 =>
    let st2 :=
      match cycle.bus_mode with
      | BusMode.Read => st1
      | BusMode.Write =>
        { st1 with mem := fun a => if a = st1.bus.address then st1.bus.data else st1.mem a }
    interrupt_poll st2

/-- One scheduler quantum of `Mos6502::synchronize` (`lib.rs` lines
298-865): pop a cycle (or synthesize the opcode fetch), drive phase 1,
perform the bus read, and either commit the cycle or — when `rdy` is
deasserted on a read cycle — push the popped cycle back to the front.
The address space is RAM over the whole space, so reads return the stored
byte and the CPU's `.unwrap_or_default()` path is never taken. -/
def stepCycle (st : Mos6502) : Option Mos6502 :=
  let popped : Cycle × Mos6502 :=
    match st.instruction_queue with
    | [] => (opcode_fetch_cycle, st)
    | c :: rest => (c, { st with instruction_queue := rest })
  let cycle := popped.1
  match applyPhi1 popped.2 cycle.phi1 with
  | none => none
  | some st1 =>
    -- `if rdy || !is_read` of the source: on a read cycle the gate is
    -- `rdy`, on a write cycle it is always passed
    match cycle.bus_mode with
    | BusMode.Read =>
      let st2 := { st1 with bus := { st1.bus with data := st1.mem st1.bus.address % 256 } }
      if st2.rdy then run_cycle_body st2 cycle
      else some { st2 with instruction_queue := cycle :: st2.instruction_queue }
    | BusMode.Write => run_cycle_body st1 cycle

/-- The same quantum with the rdy gate removed: phase 1, bus read and the
committed body, unconditionally.  `stepCycle` agrees with this on every
cycle except a read cycle with `rdy` deasserted. -/
def stepUnchecked (st : Mos6502) : Option Mos6502 :=
  let popped : Cycle × Mos6502 :=
    match st.instruction_queue with
    | [] => (opcode_fetch_cycle, st)
    | c :: rest => (c, { st with instruction_queue := rest })
  let cycle := popped.1
  match applyPhi1 popped.2 cycle.phi1 with
  | none => none
  | some st1 =>
    match cycle.bus_mode with
    | BusMode.Read =>
      run_cycle_body
        { st1 with bus := { st1.bus with data := st1.mem st1.bus.address % 256 } } cycle
    | BusMode.Write => run_cycle_body st1 cycle

/-- `n` consecutive scheduler quanta. -/
def stepN : Nat → Mos6502 → Option Mos6502
  | 0, st => some st
  | n + 1, st => (stepCycle st).bind (stepN n)

/-- Mirrors `Mos6502::reset` (`lib.rs` lines 213-272): the queue is
cleared and replaced by the six-cycle reset sequence. -/
def reset_sequence : List Cycle :=
  [⟨BusMode.Read, none, []⟩,
   ⟨BusMode.Read, none, []⟩,
   ⟨BusMode.Read, none,
    [Phi2.Move (MoveSource.Constant 0xfd) MoveDestination.Stack]⟩,
   ⟨BusMode.Read, none,
    [Phi2.Move
      (MoveSource.Constant
        ((FlagRegister.mk false false false true false false).to_byte false))
      MoveDestination.Flags]⟩,
   ⟨BusMode.Read, some (Phi1.SetAddressBus (SetAddressBusSource.Constant RESET_VECTOR)),
    [Phi2.Move MoveSource.Data MoveDestination.EffectiveAddress]⟩,
   ⟨BusMode.Read, some (Phi1.SetAddressBus (SetAddressBusSource.Constant (RESET_VECTOR + 1))),
    [Phi2.Move MoveSource.Data MoveDestination.EffectiveAddress,
     Phi2.LoadInstructionPointerFromEffectiveAddress]⟩]

/-- Applies `Mos6502::reset` to a state. -/
def reset (st : Mos6502) : Mos6502 :=
  { st with instruction_queue := reset_sequence }

/-- Mirrors `Mos6502Config::build_component` (`lib.rs` lines 876-915):
the initial register file, the default shared flags, and the reset state
for startup. -/
def build_component (kind : Mos6502Kind) (mem : Nat → Nat) : Mos6502 :=
  reset
    { a := 0
      x := 0
      y := 0
      flags := FlagRegister.default
      stack := 0xff
      instruction_pointer := 0x0000
      instruction_queue := []
      bus := ⟨0x0000, 0x00⟩
      effective_address := []
      operand := 0
      rdy := true
      irq := true
      nmi := NmiFlag.init
      kind := kind
      mem := mem }

/-- Whether the queue is empty again after `n` quanta, i.e. the pending
instruction has finished (a panic counts as not finished). -/
def instruction_complete_after (st : Mos6502) (n : Nat) : Bool :=
  match stepN n st with
  | some s => s.instruction_queue.isEmpty
  | none => false

/-- Scenario S1: RAM over the whole space with `0x34 0x12` at the reset
vector. -/
def memS1 : Nat → Nat := fun a =>
  if a = 0xfffc then 0x34 else if a = 0xfffd then 0x12 else 0

/-- Scenario S1: the freshly built (hence reset) CPU. -/
def resetState : Mos6502 :=
  build_component Mos6502Kind.Mos6502 memS1

/-- Scenario S4: RAM holding `6C FF 02` at `0x1000` and the indirect
pointer bytes. -/
def memS4 : Nat → Nat := fun a =>
  if a = 0x1000 then 0x6c else if a = 0x1001 then 0xff else if a = 0x1002 then 0x02
  else if a = 0x02ff then 0x34 else if a = 0x0200 then 0x12
  else if a = 0x0300 then 0x78 else 0

/-- Scenario S4: CPU about to fetch the `JMP (0x02FF)` at `0x1000`. -/
def jmpState (kind : Mos6502Kind) : Mos6502 :=
  { a := 0
    x := 0
    y := 0
    flags := FlagRegister.default
    stack := 0xfd
    instruction_pointer := 0x1000
    instruction_queue := []
    bus := ⟨0, 0⟩
    effective_address := []
    operand := 0
    rdy := true
    irq := true
    nmi := NmiFlag.init
    kind := kind
    mem := memS4 }

/-- Scenario S3: RAM holding `F0 10` (`BEQ +16`) at `0x80FE`. -/
def memS3 : Nat → Nat := fun a =>
  if a = 0x80fe then 0xf0 else if a = 0x80ff then 0x10 else 0

/-- Scenario S3: CPU about to fetch the `BEQ` at `0x80FE`, with the given
zero flag. -/
def beqState (z : Bool) : Mos6502 :=
  { jmpState Mos6502Kind.Mos6502 with
    instruction_pointer := 0x80fe
    flags := { FlagRegister.default with zero := z }
    mem := memS3 }

/-- Interrupt-poll probe: a CPU one dummy cycle away from an empty queue,
with the IRQ line asserted (stored level `false`, so
`IrqFlag::interrupt_required` is `true`), the `I` flag clear, `rdy` high
and no NMI edge latched. -/
def irqPollState : Mos6502 :=
  { jmpState Mos6502Kind.Mos6502 with
    instruction_queue := [Cycle.dummy]
    irq := false
    mem := fun _ => 0 }

/-- Interrupt-poll probe: the same CPU with an NMI falling edge latched
instead. -/
def nmiPollState : Mos6502 :=
  { jmpState Mos6502Kind.Mos6502 with
    instruction_queue := [Cycle.dummy]
    nmi := ⟨false, true⟩
    mem := fun _ => 0 }

/-- A CPU frozen by `rdy`: one pending read cycle and `rdy` deasserted. -/
def frozenState : Mos6502 :=
  { jmpState Mos6502Kind.Mos6502 with
    instruction_queue := [Cycle.dummy]
    rdy := false
    mem := fun _ => 0 }

/-- A CPU with `rdy` deasserted whose pending read cycle drives the
address bus from the effective address: phase 1 of the frozen quantum
clears the scratch vector, and the re-run of phase 1 on the next quantum
(the `for` loop of `synchronize` does not return) finds it empty and hits
the source's `unreachable!`. -/
def frozenEaState : Mos6502 :=
  { jmpState Mos6502Kind.Mos6502 with
    instruction_queue :=
      [⟨BusMode.Read, some (Phi1.SetAddressBus SetAddressBusSource.EffectiveAddress), []⟩]
    effective_address := [0x34]
    rdy := false
    mem := fun _ => 0 }

/-- A CPU with a pending write cycle (for the rdy-independence of writes). -/
def pendingWriteState : Mos6502 :=
  { jmpState Mos6502Kind.Mos6502 with
    instruction_queue :=
      [⟨BusMode.Write, some (Phi1.SetAddressBus (SetAddressBusSource.Constant 0x2000)), []⟩]
    rdy := false
    mem := fun _ => 0 }

end Mos6502

/-- One call against the shared NMI flag: a producer `store` or the CPU's
read-and-clear `interrupt_required` poll. -/
inductive NmiOp where
  | store (value : Bool)
  | poll
deriving DecidableEq, Repr

/-- The sequence of values `interrupt_required` returns along a trace of
interleaved calls. -/
def nmiResults : List NmiOp → NmiFlag → List Bool
  | [], _ => []
  | NmiOp.store b :: ops, s => nmiResults ops (s.store b)
  | NmiOp.poll :: ops, s =>
    (s.interrupt_required).1 :: nmiResults ops (s.interrupt_required).2

/-- How many polls of a trace return `true`. -/
def nmiTrueCount (ops : List NmiOp) (s : NmiFlag) : Nat :=
  (nmiResults ops s).count true

/-- How many high-to-low transitions of the stored state a trace performs. -/
def nmiFallingCount : List NmiOp → NmiFlag → Nat
  | [], _ => 0
  | NmiOp.store b :: ops, s =>
    (if s.current_state && !b then 1 else 0) + nmiFallingCount ops (s.store b)
  | NmiOp.poll :: ops, s => nmiFallingCount ops (s.interrupt_required).2

/-- Two falling edges with no poll in between, then two polls. -/
def nmiCoalesceTrace : List NmiOp :=
  [NmiOp.store false, NmiOp.store true, NmiOp.store false, NmiOp.poll, NmiOp.poll]

/-- The scale factor of the raw representation of `Period = FixedU128<U64>`
(`scheduler/mod.rs` line 69): a period holds `value · 2^64` in 128 bits. -/
def periodScale : Nat := 2 ^ 64

/-- Mirrors `SynchronizationContext` of `scheduler/mod.rs`.  `next_event`
models `event_manager.next_event()` (a peek at the soonest pending trigger;
`scheduler/event.rs` is not among the provided sources) and `interrupt`
models the `PreemptionSignal` bit. -/
structure SynchronizationContext where
  updated_timestamp : Nat
  target_timestamp : Nat
  next_event : Option Nat
  interrupt : Bool
  last_attempted_allocation : Option Nat
deriving DecidableEq, Repr

/-- The `stop_time` computed by `allocate` and by the preemption re-check:
the target clamped by the soonest pending event. -/
def stop_time (c : SynchronizationContext) : Nat :=
  match c.next_event with
  | none => c.target_timestamp
  | some e => min c.target_timestamp e

/-- Mirrors `(stop_time.saturating_sub(updated) / period).floor().to_num::<u64>()`
on raw fixed-point values: `FixedU128<U64>` division computes the raw
value `a · 2^64 / b` truncated in 128 bits, wrapping at `2^128` on
overflow (release mode; debug panics), `floor` clears the 64 fractional
bits, and `to_num::<u64>` drops them — the integer part of a wrapped
128-bit raw value is below `2^64`, so `to_num` itself never overflows.
Division by a zero period panics in the source; theorems assume a
positive period. -/
def quanta_budget (c : SynchronizationContext) (period : Nat) : Nat :=
  (stop_time c - c.updated_timestamp) * periodScale / period % 2 ^ 128 / periodScale

/-- Mirrors `QuantaIterator` of `scheduler/mod.rs`. -/
structure QuantaIterator where
  period : Nat
  budget : Nat
  context : SynchronizationContext
deriving DecidableEq, Repr

/-- Mirrors `SynchronizationContext::allocate`: remember the period, clamp
the stop time by the next event, compute the budget and clamp it by the
execution limit.  The source's budget is a `u64`; every budget this
definition stores is below `2^64` (`allocate_budget_fits`), because the
wrapped 128-bit raw quotient has a 64-bit integer part and the limit only
shrinks it. -/
def allocate (c : SynchronizationContext) (period : Nat)
    (execution_limit : Option Nat) : QuantaIterator :=
  let c1 := { c with last_attempted_allocation := some period }
  let budget := quanta_budget c1 period
  let budget :=
    match execution_limit with
    | some l => min budget l
    | none => budget
  ⟨period, budget, c1⟩

/-- The preemption re-check at the top of `QuantaIterator::next`:
`PreemptionSignal::needs_preemption` (`scheduler/event.rs` is not among
the provided sources) is modelled from the spec as a read-and-clear bit,
so the source's `while` loop runs its body at most once; the body re-reads
the next event and shrinks the budget to the freshly computed one. -/
def preempt_check (it : QuantaIterator) : QuantaIterator :=
  if it.context.interrupt then
    { it with
      budget := min it.budget (quanta_budget it.context it.period)
      context := { it.context with interrupt := false } }
  else it

/-- Mirrors `QuantaIterator::next`: after the preemption re-check, a zero
budget yields `None`; otherwise the budget decreases, the timestamp
advances by one period (`Period` addition on the raw 128-bit fixed-point
representation, wrapping at `2^128` in release mode) and is yielded. -/
def quantaNext (it : QuantaIterator) : Option (Nat × QuantaIterator) :=
  let it1 := preempt_check it
  if it1.budget = 0 then none
  else
    let ts := (it1.context.updated_timestamp + it1.period) % 2 ^ 128
    some (ts, { it1 with
      budget := it1.budget - 1
      context := { it1.context with updated_timestamp := ts } })

/-- Pulls up to `n` timestamps from the iterator, returning the yielded
timestamps in order together with the final iterator state. -/
def consume : Nat → QuantaIterator → List Nat × QuantaIterator
  | 0, it => ([], it)
  | n + 1, it =>
    match quantaNext it with
    | none => ([], it)
    | some (ts, it1) =>
      let r := consume n it1
      (ts :: r.1, r.2)

/-- Drains the iterator (its budget only ever decreases, so the budget is
enough fuel). -/
def consumeAll (it : QuantaIterator) : List Nat × QuantaIterator :=
  consume it.budget it

/-- Modelled from the spec: `ComponentHandle::interact_mut`
(`component.rs` is not among the provided sources) drives a component's
`synchronize` up to the target timestamp; per §4.3 the component's cursor
advances by whole periods and never overshoots the target.  It has no
access to the scheduler's `current_driven_time`. -/
structure DrivenComponent where
  timestamp : Nat
  period : Nat
deriving DecidableEq, Repr

/-- Modelled from the spec: the advance `interact_mut` produces on the
component's virtual-time cursor (whole periods up to the target). -/
def interact_mut (target : Nat) (c : DrivenComponent) : DrivenComponent :=
  { c with timestamp := c.timestamp + (target - c.timestamp) / c.period * c.period }

/-- A concrete synchronization context for evaluating the quanta iterator:
timestamp 0, target 3 virtual-time units, no pending event, preemption
clear. -/
def sampleContext : SynchronizationContext :=
  ⟨0, 3 * 2 ^ 64, none, false, none⟩

/-- Mirrors `Scheduler` of `scheduler/mod.rs`, restricted to the fields
`run` and `now` touch; the driven components are kept as a list of
virtual-time cursors. -/
structure Scheduler where
  current_driven_time : Nat
  driven : List DrivenComponent

/-- Mirrors `Scheduler::now`. -/
def Scheduler.now (s : Scheduler) : Nat :=
  s.current_driven_time

/-- Mirrors `Scheduler::run`: add the allocated time to the current driven
time under the lock (`+=` on the raw 128-bit fixed-point representation,
wrapping at `2^128`), then let every driven component synchronize up to the
new time. -/
def Scheduler.run (s : Scheduler) (allocated_time : Nat) : Scheduler :=
  let t := (s.current_driven_time + allocated_time) % 2 ^ 128
  { current_driven_time := t, driven := s.driven.map (interact_mut t) }

/-!
### Theorems
-/

namespace Mos6502

/-- C5: after `reset()` the queue holds exactly the six-cycle reset
sequence (two dummy reads, store `0xFD` to the stack register, set the
flags to `I = 1` with N, V, D, Z, C clear, then reads of `0xFFFC` and
`0xFFFD` loading the instruction pointer little-endian), and with
`mem[0xFFFC] = 0x34`, `mem[0xFFFD] = 0x12` running those six cycles leaves
`IP = 0x1234`, `stack = 0xFD`, `flags.I = true`, `flags.D = false` and an
empty queue. -/
theorem reset_six_cycle_scenario :
    resetState.instruction_queue = reset_sequence ∧
    reset_sequence.length = 6 ∧
    (stepN 6 resetState).map
        (fun s => (s.instruction_pointer, s.stack, s.flags.interrupt_disable,
                   s.flags.decimal, s.instruction_queue)) =
      some (0x1234, 0xfd, true, false, []) := by
  refine ⟨rfl, rfl, ?_⟩
  decide

/-- C6: executing `JMP (0x02FF)` (bytes `6C FF 02` at `IP = 0x1000`, with
`mem[0x02FF] = 0x34`, `mem[0x0200] = 0x12`, `mem[0x0300] = 0x78`) on the
`Mos6502` kind reads the high target byte from `0x0200` (page wrap
errata), finishing after five cycles with `IP = 0x1234`; on `Wdc65C02` an
adjustment cycle carries into the high pointer byte, so the instruction is
still in progress after five cycles and finishes after six with
`IP = 0x7834`. -/
theorem jmp_absolute_indirect_errata_scenario :
    (stepN 5 (jmpState Mos6502Kind.Mos6502)).map
        (fun s => (s.instruction_pointer, s.instruction_queue)) =
      some (0x1234, []) ∧
    instruction_complete_after (jmpState Mos6502Kind.Mos6502) 4 = false ∧
    (stepN 6 (jmpState Mos6502Kind.Wdc65C02)).map
        (fun s => (s.instruction_pointer, s.instruction_queue)) =
      some (0x7834, []) ∧
    instruction_complete_after (jmpState Mos6502Kind.Wdc65C02) 5 = false := by
  refine ⟨?_, ?_, ?_, ?_⟩ <;> decide

/-- C7 (counterexample): with `IP = 0x80FE`, memory `F0 10` and
`flags.Z = 1` the taken `BEQ` has already finished — queue empty and
`IP = 0x8110` — after 3 cycles, so it does not consume the 4 cycles the
claim states (which would require it to still be in progress after 3). -/
theorem beq_page_cross_counterexample :
    (stepN 3 (beqState true)).map
        (fun s => (s.instruction_pointer, s.instruction_queue)) =
      some (0x8110, []) ∧
    ¬ instruction_complete_after (beqState true) 3 = false := by
  refine ⟨?_, ?_⟩ <;> decide

/-- C7 (amended): the taken `BEQ` at `0x80FE` with offset `+0x10` leaves
`IP = 0x8110` after exactly 3 cycles (2 base + 1 taken; no page-cross
cycle is inserted because the signed add starts from the post-fetch
`IP = 0x8100`, which already lies on the target's page), and with
`flags.Z = 0` it leaves `IP = 0x8100` after exactly 2 cycles. -/
theorem beq_cycle_count_scenario :
    (stepN 3 (beqState true)).map
        (fun s => (s.instruction_pointer, s.instruction_queue)) =
      some (0x8110, []) ∧
    instruction_complete_after (beqState true) 2 = false ∧
    (stepN 2 (beqState false)).map
        (fun s => (s.instruction_pointer, s.instruction_queue)) =
      some (0x8100, []) ∧
    instruction_complete_after (beqState false) 1 = false := by
  refine ⟨?_, ?_, ?_, ?_⟩ <;> decide

/-- C1: at an interrupt-poll point (cycle finished, queue empty, kind
supports interrupts) with the IRQ line asserted, the `I` flag clear and no
NMI edge latched, the code appends nothing — the IRQ line is never polled
by `Mos6502::synchronize` — and with an NMI edge latched it appends a
six-cycle (not seven-cycle) sequence. -/
theorem interrupt_poll_ignores_irq :
    IrqFlag.interrupt_required irqPollState.irq = true ∧
    irqPollState.flags.interrupt_disable = false ∧
    irqPollState.kind.supports_interrupts = true ∧
    (stepCycle irqPollState).map (fun s => s.instruction_queue) = some [] ∧
    (stepCycle nmiPollState).map (fun s => s.instruction_queue.length) = some 6 := by
  refine ⟨rfl, rfl, rfl, ?_, ?_⟩ <;> decide

end Mos6502

/-- C8 (counterexample): along the trace `store(false); store(true);
store(false); poll; poll` from the default flag state there are two
high-to-low transitions but `interrupt_required()` returns `true` only
once — the second edge is latched while the first is still pending, so the
two coalesce. -/
theorem nmi_exactly_once_counterexample :
    nmiFallingCount nmiCoalesceTrace NmiFlag.init = 2 ∧
    nmiTrueCount nmiCoalesceTrace NmiFlag.init = 1 := by
  refine ⟨?_, ?_⟩ <;> decide

/-- C8 (amended): `interrupt_required()` returns `true` at most once per
high-to-low transition of the stored state (edges latched before a poll
coalesce): along any trace, the number of `true` results is bounded by the
number of falling edges plus an initially latched one; a falling edge from
a high stored state sets the latch; a poll returns the latch and clears
it; and a store of `false` on an already-low state leaves the flag
unchanged, so repeated stores of `false` never retrigger. -/
theorem nmi_latch_once_per_edge :
    (∀ (ops : List NmiOp) (s : NmiFlag),
      nmiTrueCount ops s ≤
        nmiFallingCount ops s + (if s.falling_edge_occured then 1 else 0)) ∧
    (∀ s : NmiFlag, s.current_state = true →
      (s.store false).falling_edge_occured = true) ∧
    (∀ s : NmiFlag,
      (s.interrupt_required).1 = s.falling_edge_occured ∧
      ((s.interrupt_required).2).falling_edge_occured = false) ∧
    (∀ s : NmiFlag, s.current_state = false → s.store false = s) := by
  refine ⟨?_, ?_, ?_, ?_⟩
  · intro ops
    induction ops with
    | nil => intro s; simp [nmiTrueCount, nmiResults, nmiFallingCount]
    | cons op rest ih =>
      intro s
      cases op with
      | store b =>
        have h := ih (s.store b)
        simp only [nmiTrueCount, nmiResults, nmiFallingCount] at *
        have hedge :
            (if (s.store b).falling_edge_occured then 1 else 0) ≤
              (if s.current_state && !b then 1 else 0) +
                (if s.falling_edge_occured then 1 else 0) := by
          by_cases hc : s.current_state && !b <;>
            by_cases hf : s.falling_edge_occured <;>
              simp [NmiFlag.store, hc, hf]
        omega
      | poll =>
        have h := ih (s.interrupt_required).2
        simp only [nmiTrueCount, nmiResults, nmiFallingCount, List.count_cons] at *
        have hcl : ((s.interrupt_required).2).falling_edge_occured = false := rfl
        rw [hcl] at h
        by_cases hf : s.falling_edge_occured <;>
          simp [NmiFlag.interrupt_required, hf] at * <;> omega
  · intro s h
    simp [NmiFlag.store, h]
  · intro s
    exact ⟨rfl, rfl⟩
  · intro s h
    cases s with
    | mk cur edge =>
      simp only at h
      subst h
      simp [NmiFlag.store]

/-- C8 (witness): the amended statement evaluated on concrete flag states
and the coalescing trace. -/
theorem nmi_latch_once_per_edge_witness :
    nmiTrueCount nmiCoalesceTrace NmiFlag.init ≤
      nmiFallingCount nmiCoalesceTrace NmiFlag.init +
        (if NmiFlag.init.falling_edge_occured then 1 else 0) ∧
    ((NmiFlag.mk true false).store false).falling_edge_occured = true ∧
    (NmiFlag.mk false true).store false = NmiFlag.mk false true :=
  ⟨nmi_latch_once_per_edge.1 nmiCoalesceTrace NmiFlag.init,
   nmi_latch_once_per_edge.2.1 (NmiFlag.mk true false) rfl,
   nmi_latch_once_per_edge.2.2.2 (NmiFlag.mk false true) rfl⟩

/-- C10: `from_byte` inverts `to_byte` for every flag register and break
bit; `to_byte` always sets bit 5 and writes the break argument to bit 4;
and `from_byte` ignores bits 4 and 5 of its input (masking them away
changes nothing), so bytes pulled into the flags can never alter the six
stored flags through the break or unused bits. -/
theorem flag_register_byte_round_trip :
    (∀ (f : FlagRegister) (b : Bool), FlagRegister.from_byte (f.to_byte b) = f) ∧
    (∀ (f : FlagRegister) (b : Bool),
      (f.to_byte b).testBit 5 = true ∧ (f.to_byte b).testBit 4 = b) ∧
    (∀ v : Nat, FlagRegister.from_byte (v &&& 0xcf) = FlagRegister.from_byte v) := by
  refine ⟨?_, ?_, ?_⟩
  · intro f b
    cases f with
    | mk n o d i z c => revert n o d i z c b; decide
  · intro f b
    cases f with
    | mk n o d i z c => revert n o d i z c b; decide
  · intro v
    have hmask : ∀ i : Nat, (0xcf : Nat).testBit i = true →
        (v &&& 0xcf).testBit i = v.testBit i := by
      intro i hi
      rw [Nat.testBit_and, hi, Bool.and_true]
    simp only [FlagRegister.from_byte, FlagRegister.mk.injEq]
    exact ⟨hmask 7 (by decide), hmask 6 (by decide), hmask 3 (by decide),
           hmask 2 (by decide), hmask 1 (by decide), hmask 0 (by decide)⟩

/-- C2: for every scheduler state and allocated time `Δ > 0` (raw
fixed-point), `run(Δ)` — a total function, hence terminating — leaves
`now()` equal to its pre-call value plus `Δ` exactly, the addition being
exact integer arithmetic on the raw 128-bit fixed-point representation
(no overflow assumed, matching the release-mode wrap of `+=`). -/
theorem run_advances_now_exactly (s : Scheduler) (Δ : Nat)
    (_hpos : 0 < Δ) (hnoov : s.now + Δ < 2 ^ 128) :
    (s.run Δ).now = s.now + Δ := by
  simp only [Scheduler.run, Scheduler.now] at *
  exact Nat.mod_eq_of_lt hnoov

/-- C2 (witness): a concrete scheduler with two driven components advanced
by five time units. -/
theorem run_advances_now_exactly_witness :
    (Scheduler.run ⟨7, [⟨0, 2⟩, ⟨0, 3⟩]⟩ 5).now = Scheduler.now ⟨7, [⟨0, 2⟩, ⟨0, 3⟩]⟩ + 5 :=
  run_advances_now_exactly ⟨7, [⟨0, 2⟩, ⟨0, 3⟩]⟩ 5 (by decide) (by decide)

/-- Even with the 128-bit wrap, the budget never exceeds the plain floor
`⌊d / p⌋` of the quotient of raw values (the wrap only shrinks the
dividend). -/
theorem quanta_budget_le (c : SynchronizationContext) (p : Nat) :
    quanta_budget c p ≤ (stop_time c - c.updated_timestamp) / p := by
  unfold quanta_budget
  calc (stop_time c - c.updated_timestamp) * periodScale / p % 2 ^ 128 / periodScale
      ≤ (stop_time c - c.updated_timestamp) * periodScale / p / periodScale :=
        Nat.div_le_div_right (Nat.mod_le _ _)
    _ = (stop_time c - c.updated_timestamp) / p := by
        unfold periodScale
        rw [Nat.div_div_eq_div_mul, Nat.mul_comm p (2 ^ 64), ← Nat.div_div_eq_div_mul,
          Nat.mul_div_cancel _ (by positivity)]

/-- When the true budget fits in a `u64` — exactly the inputs on which the
source's division does not overflow its 128 raw bits — the wrapped budget
is the plain floor `⌊d / p⌋`. -/
theorem quanta_budget_eq (c : SynchronizationContext) (p : Nat)
    (hfit : (stop_time c - c.updated_timestamp) / p < 2 ^ 64) :
    quanta_budget c p = (stop_time c - c.updated_timestamp) / p := by
  have hdiv : (stop_time c - c.updated_timestamp) * periodScale / p / periodScale =
      (stop_time c - c.updated_timestamp) / p := by
    unfold periodScale
    rw [Nat.div_div_eq_div_mul, Nat.mul_comm p (2 ^ 64), ← Nat.div_div_eq_div_mul,
      Nat.mul_div_cancel _ (by positivity)]
  have hraw : (stop_time c - c.updated_timestamp) * periodScale / p < 2 ^ 128 := by
    have h1 : (stop_time c - c.updated_timestamp) * periodScale / p / periodScale <
        2 ^ 64 := by
      rw [hdiv]; exact hfit
    have h2 := (Nat.div_lt_iff_lt_mul (show 0 < periodScale by
      unfold periodScale; positivity)).mp h1
    calc (stop_time c - c.updated_timestamp) * periodScale / p
        < 2 ^ 64 * periodScale := h2
      _ = 2 ^ 128 := by unfold periodScale; norm_num
  unfold quanta_budget
  rw [Nat.mod_eq_of_lt hraw, hdiv]

/-- The preemption re-check keeps the period. -/
theorem preempt_check_period (it : QuantaIterator) :
    (preempt_check it).period = it.period := by
  unfold preempt_check
  split <;> rfl

/-- The preemption re-check keeps the component's timestamp. -/
theorem preempt_check_updated (it : QuantaIterator) :
    (preempt_check it).context.updated_timestamp = it.context.updated_timestamp := by
  unfold preempt_check
  split <;> rfl

/-- The preemption re-check keeps the target timestamp. -/
theorem preempt_check_target (it : QuantaIterator) :
    (preempt_check it).context.target_timestamp = it.context.target_timestamp := by
  unfold preempt_check
  split <;> rfl

/-- The preemption re-check keeps the next event. -/
theorem preempt_check_event (it : QuantaIterator) :
    (preempt_check it).context.next_event = it.context.next_event := by
  unfold preempt_check
  split <;> rfl

/-- The preemption re-check keeps the stop time (target and next event). -/
theorem preempt_check_stop (it : QuantaIterator) :
    stop_time (preempt_check it).context = stop_time it.context := by
  unfold preempt_check
  split <;> rfl

/-- The preemption re-check never turns the interrupt bit on. -/
theorem preempt_check_interrupt (it : QuantaIterator)
    (h : it.context.interrupt = false) : preempt_check it = it := by
  unfold preempt_check
  rw [h]
  rfl

/-- The budget-versus-remaining-time invariant the iterator maintains. -/
def budget_inv (it : QuantaIterator) : Prop :=
  it.budget * it.period ≤ stop_time it.context - it.context.updated_timestamp

/-- The preemption re-check preserves the invariant (its recomputed budget
satisfies it outright, and `min` only shrinks the budget). -/
theorem preempt_check_inv (it : QuantaIterator) (hinv : budget_inv it) :
    budget_inv (preempt_check it) := by
  unfold preempt_check
  split
  · unfold budget_inv
    calc min it.budget (quanta_budget it.context it.period) * it.period
        ≤ quanta_budget it.context it.period * it.period :=
          Nat.mul_le_mul_right _ (Nat.min_le_right _ _)
      _ ≤ (stop_time it.context - it.context.updated_timestamp) / it.period *
            it.period :=
          Nat.mul_le_mul_right _ (quanta_budget_le _ _)
      _ ≤ stop_time it.context - it.context.updated_timestamp :=
          Nat.div_mul_le_self _ _
  · exact hinv

/-- What one successful `next` does: the period, target and next event are
unchanged, the timestamp advances by one period (on the wrapping raw
representation) and is the yielded value, and the interrupt bit never
turns on. -/
theorem quantaNext_some_spec (it : QuantaIterator) (ts : Nat) (it1 : QuantaIterator)
    (h : quantaNext it = some (ts, it1)) :
    it1.period = it.period ∧
    it1.context.target_timestamp = it.context.target_timestamp ∧
    it1.context.next_event = it.context.next_event ∧
    it1.context.updated_timestamp =
      (it.context.updated_timestamp + it.period) % 2 ^ 128 ∧
    ts = it1.context.updated_timestamp ∧
    (it.context.interrupt = false → it1.context.interrupt = false) := by
  unfold quantaNext at h
  by_cases hz : (preempt_check it).budget = 0
  · simp only [hz, if_true, reduceCtorEq] at h
  · simp only [hz, if_false, Option.some.injEq, Prod.mk.injEq] at h
    obtain ⟨hts, hit⟩ := h
    subst hit
    refine ⟨preempt_check_period it, ?_, ?_, ?_, ?_, ?_⟩
    · exact preempt_check_target it
    · exact preempt_check_event it
    · simp [preempt_check_updated it, preempt_check_period it]
    · exact hts.symm
    · intro hf
      simp [preempt_check_interrupt it hf, hf]

/-- One successful `next` from an iterator satisfying the invariant, with
a stop time inside the 128-bit range of `Period`: the yielded timestamp is
bounded by the stop time, the invariant is maintained, and the wrapping
addition is in fact exact. -/
theorem quantaNext_some_bound (it : QuantaIterator) (ts : Nat) (it1 : QuantaIterator)
    (hp : 0 < it.period) (hinv : budget_inv it)
    (hstop128 : stop_time it.context < 2 ^ 128)
    (h : quantaNext it = some (ts, it1)) :
    ts ≤ stop_time it.context ∧ budget_inv it1 ∧
    it1.context.updated_timestamp = it.context.updated_timestamp + it.period := by
  have hpc := preempt_check_inv it hinv
  have hper := preempt_check_period it
  have hupd := preempt_check_updated it
  have hstop := preempt_check_stop it
  unfold quantaNext at h
  by_cases hz : (preempt_check it).budget = 0
  · simp only [hz, if_true, reduceCtorEq] at h
  · simp only [hz, if_false, Option.some.injEq, Prod.mk.injEq] at h
    obtain ⟨hts, hit⟩ := h
    subst hit
    subst hts
    unfold budget_inv at hpc
    have hPle : (preempt_check it).period ≤
        (preempt_check it).budget * (preempt_check it).period := by
      calc (preempt_check it).period
          = 1 * (preempt_check it).period := (Nat.one_mul _).symm
        _ ≤ (preempt_check it).budget * (preempt_check it).period :=
            Nat.mul_le_mul_right _ (Nat.one_le_iff_ne_zero.mpr hz)
    have hsum : (preempt_check it).context.updated_timestamp +
        (preempt_check it).period ≤ stop_time (preempt_check it).context := by
      omega
    have hlt : (preempt_check it).context.updated_timestamp +
        (preempt_check it).period < 2 ^ 128 := by
      rw [hstop] at hsum
      omega
    have hmod : ((preempt_check it).context.updated_timestamp +
        (preempt_check it).period) % 2 ^ 128 =
        (preempt_check it).context.updated_timestamp + (preempt_check it).period :=
      Nat.mod_eq_of_lt hlt
    refine ⟨?_, ?_, ?_⟩
    · show ((preempt_check it).context.updated_timestamp +
          (preempt_check it).period) % 2 ^ 128 ≤ stop_time it.context
      rw [hmod, ← hstop]
      exact hsum
    · show ((preempt_check it).budget - 1) * (preempt_check it).period ≤
        stop_time (preempt_check it).context -
          ((preempt_check it).context.updated_timestamp +
            (preempt_check it).period) % 2 ^ 128
      rw [hmod]
      have hsub : ((preempt_check it).budget - 1) * (preempt_check it).period =
          (preempt_check it).budget * (preempt_check it).period -
            (preempt_check it).period := by
        rw [Nat.sub_mul, Nat.one_mul]
      omega
    · show ((preempt_check it).context.updated_timestamp +
          (preempt_check it).period) % 2 ^ 128 =
        it.context.updated_timestamp + it.period
      rw [hmod, hupd, hper]

/-- Along any consumption from an iterator satisfying the invariant (with
a stop time inside the 128-bit range of `Period`): the component's
timestamp advances by exactly one period per yielded timestamp, and every
yield is bounded by the stop time — whatever the preemption signal does. -/
theorem consume_spec (n : Nat) (it : QuantaIterator) (hp : 0 < it.period)
    (hinv : budget_inv it) (hstop128 : stop_time it.context < 2 ^ 128) :
    (consume n it).2.context.updated_timestamp =
      it.context.updated_timestamp + (consume n it).1.length * it.period ∧
    (consume n it).1.all (fun ts => decide (ts ≤ stop_time it.context)) = true := by
  induction n generalizing it with
  | zero => simp [consume]
  | succ n ih =>
    unfold consume
    cases h : quantaNext it with
    | none => simp
    | some p =>
      obtain ⟨ts, it1⟩ := p
      obtain ⟨hts, hinv1, hadv⟩ := quantaNext_some_bound it ts it1 hp hinv hstop128 h
      obtain ⟨hper, htar, hev, -, -, -⟩ := quantaNext_some_spec it ts it1 h
      have hstop1 : stop_time it1.context = stop_time it.context := by
        unfold stop_time
        rw [htar, hev]
      obtain ⟨ih1, ih2⟩ := ih it1 (by rw [hper]; exact hp) hinv1
        (by rw [hstop1]; exact hstop128)
      rw [hstop1] at ih2
      constructor
      · simp only [List.length_cons]
        rw [ih1, hadv, hper, Nat.succ_mul]
        omega
      · simp only [List.all_cons, ih2, Bool.and_true, decide_eq_true_eq]
        exact hts

/-- With the preemption signal clear the iterator yields exactly
`min fuel budget` timestamps. -/
theorem consume_length (n : Nat) (it : QuantaIterator)
    (hq : it.context.interrupt = false) :
    (consume n it).1.length = min n it.budget := by
  induction n generalizing it with
  | zero => simp [consume]
  | succ n ih =>
    unfold consume quantaNext
    rw [preempt_check_interrupt it hq]
    by_cases hz : it.budget = 0
    · simp [hz]
    · simp only [hz, if_false]
      have hrest := ih
        { it with
          budget := it.budget - 1
          context := { it.context with
            updated_timestamp :=
              (it.context.updated_timestamp + it.period) % 2 ^ 128 } } hq
      simp only [List.length_cons, hrest]
      omega

/-- Every budget `allocate` stores fits the source's `u64` type of
`QuantaIterator::budget`: the integer part of a wrapped 128-bit raw
quotient is below `2^64`, and the execution limit only shrinks it. -/
theorem allocate_budget_fits (c : SynchronizationContext) (p : Nat)
    (l : Option Nat) : (allocate c p l).budget < 2 ^ 64 := by
  have hq : ∀ c' : SynchronizationContext, quanta_budget c' p < 2 ^ 64 := by
    intro c'
    unfold quanta_budget
    have hbound : (stop_time c' - c'.updated_timestamp) * periodScale / p % 2 ^ 128 <
        2 ^ 64 * periodScale := by
      calc (stop_time c' - c'.updated_timestamp) * periodScale / p % 2 ^ 128
          < 2 ^ 128 := Nat.mod_lt _ (by positivity)
        _ = 2 ^ 64 * periodScale := by unfold periodScale; norm_num
    exact (Nat.div_lt_iff_lt_mul (by unfold periodScale; positivity)).mpr hbound
  cases l with
  | none => exact hq _
  | some lv => exact lt_of_le_of_lt (Nat.min_le_left _ _) (hq _)

/-- C3: for every synchronization context with target `T` (inside the
128-bit range of `Period`), component timestamp `t` and period `p > 0`
whose true budget `⌊(min(T, next_event) − t) / p⌋` fits the source's
`u64` (i.e. the fixed-point division does not overflow), the iterator
returned by `allocate(p, limit)` is such that: consuming timestamps
advances `updated_timestamp` by exactly (number consumed)·`p`; every
yielded timestamp is at most `min(T, soonest pending event)`; and with
the preemption signal clear, draining the iterator yields exactly
`min(⌊(min(T, next_event) − t) / p⌋, limit)` timestamps. -/
theorem allocate_quanta_spec (c : SynchronizationContext) (p lim n : Nat)
    (hp : 0 < p) (htarget : c.target_timestamp < 2 ^ 128)
    (hfit : (stop_time c - c.updated_timestamp) / p < 2 ^ 64) :
    ((consume n (allocate c p (some lim))).2.context.updated_timestamp =
      c.updated_timestamp + (consume n (allocate c p (some lim))).1.length * p) ∧
    ((consume n (allocate c p (some lim))).1.all
        (fun ts => decide (ts ≤ stop_time c)) = true) ∧
    (c.interrupt = false →
      (consumeAll (allocate c p (some lim))).1.length =
        min ((stop_time c - c.updated_timestamp) / p) lim) := by
  have hstop : stop_time (allocate c p (some lim)).context = stop_time c := rfl
  have hstop128 : stop_time c < 2 ^ 128 := by
    unfold stop_time
    cases hne : c.next_event with
    | none => exact htarget
    | some e => exact lt_of_le_of_lt (min_le_left _ _) htarget
  have hinv : budget_inv (allocate c p (some lim)) := by
    show min (quanta_budget { c with last_attempted_allocation := some p } p) lim * p ≤
        stop_time c - c.updated_timestamp
    calc min (quanta_budget { c with last_attempted_allocation := some p } p) lim * p
        ≤ quanta_budget { c with last_attempted_allocation := some p } p * p :=
          Nat.mul_le_mul_right _ (Nat.min_le_left _ _)
      _ ≤ (stop_time c - c.updated_timestamp) / p * p :=
          Nat.mul_le_mul_right _ (quanta_budget_le _ _)
      _ ≤ stop_time c - c.updated_timestamp := Nat.div_mul_le_self _ _
  refine ⟨?_, ?_, ?_⟩
  · exact (consume_spec n (allocate c p (some lim)) hp hinv
      (by rw [hstop]; exact hstop128)).1
  · have := (consume_spec n (allocate c p (some lim)) hp hinv
      (by rw [hstop]; exact hstop128)).2
    rw [hstop] at this
    exact this
  · intro hq
    unfold consumeAll
    rw [consume_length _ _ hq, Nat.min_self]
    show min (quanta_budget { c with last_attempted_allocation := some p } p) lim = _
    rw [quanta_budget_eq { c with last_attempted_allocation := some p } p hfit]
    rfl

/-- C3 (witness): the quanta iterator evaluated on a concrete context
(timestamp 0, target 3 units, no event, no preemption), period one unit
and execution limit 2: two pulls advance the timestamp by two periods,
stay below the target, and draining yields `min 3 2 = 2` timestamps. -/
theorem allocate_quanta_spec_witness :
    ((consume 2 (allocate sampleContext (2 ^ 64) (some 2))).2.context.updated_timestamp =
      sampleContext.updated_timestamp +
        (consume 2 (allocate sampleContext (2 ^ 64) (some 2))).1.length * 2 ^ 64) ∧
    ((consume 2 (allocate sampleContext (2 ^ 64) (some 2))).1.all
        (fun ts => decide (ts ≤ stop_time sampleContext)) = true) ∧
    ((consumeAll (allocate sampleContext (2 ^ 64) (some 2))).1.length =
      min ((stop_time sampleContext - sampleContext.updated_timestamp) / 2 ^ 64) 2) :=
  ⟨(allocate_quanta_spec sampleContext (2 ^ 64) 2 2 (by positivity) (by decide)
      (by decide)).1,
   (allocate_quanta_spec sampleContext (2 ^ 64) 2 2 (by positivity) (by decide)
      (by decide)).2.1,
   (allocate_quanta_spec sampleContext (2 ^ 64) 2 2 (by positivity) (by decide)
      (by decide)).2.2 rfl⟩

namespace Mos6502

/-- Phase 1 only drives the address bus (and may clear the
effective-address scratch): every other component of the state is
untouched. -/
theorem applyPhi1_preserves (st : Mos6502) (p : Option Phi1) (st1 : Mos6502)
    (h : applyPhi1 st p = some st1) :
    st1.a = st.a ∧ st1.x = st.x ∧ st1.y = st.y ∧ st1.flags = st.flags ∧
    st1.stack = st.stack ∧ st1.instruction_pointer = st.instruction_pointer ∧
    st1.operand = st.operand ∧ st1.instruction_queue = st.instruction_queue ∧
    st1.rdy = st.rdy ∧ st1.mem = st.mem := by
  unfold applyPhi1 at h
  split at h
  case _ =>
    injection h with h1
    subst h1
    exact ⟨rfl, rfl, rfl, rfl, rfl, rfl, rfl, rfl, rfl, rfl⟩
  case _ =>
    split at h
    · injection h with h1
      subst h1
      exact ⟨rfl, rfl, rfl, rfl, rfl, rfl, rfl, rfl, rfl, rfl⟩
    · injection h with h1
      subst h1
      exact ⟨rfl, rfl, rfl, rfl, rfl, rfl, rfl, rfl, rfl, rfl⟩
    · exact Option.noConfusion h
  case _ =>
    injection h with h1
    subst h1
    exact ⟨rfl, rfl, rfl, rfl, rfl, rfl, rfl, rfl, rfl, rfl⟩
  case _ =>
    injection h with h1
    subst h1
    exact ⟨rfl, rfl, rfl, rfl, rfl, rfl, rfl, rfl, rfl, rfl⟩
  case _ =>
    injection h with h1
    subst h1
    exact ⟨rfl, rfl, rfl, rfl, rfl, rfl, rfl, rfl, rfl, rfl⟩

/-- C9 (counterexample): the claim's "returns from synchronize, freezing
execution ... with all CPU registers unchanged" is false.  With `rdy`
deasserted and a pending read cycle whose phase 1 drives the bus from the
effective address, the frozen quantum clears the scratch
effective-address register (so not every CPU register is unchanged), the
exact cycle is re-queued — and because `synchronize` does not return but
keeps iterating its allocation loop, the next quantum re-runs phase 1,
finds the scratch vector empty, and hits the source's `unreachable!`
panic (`none`) instead of freezing. -/
theorem rdy_freeze_counterexample :
    frozenEaState.effective_address = [0x34] ∧
    (stepCycle frozenEaState).map (fun s => s.effective_address) = some [] ∧
    (stepCycle frozenEaState).map (fun s => s.instruction_queue) =
      some frozenEaState.instruction_queue ∧
    stepN 2 frozenEaState = none := by
  refine ⟨rfl, ?_, ?_, ?_⟩ <;> rfl

/-- C9 (amended): if `rdy` is deasserted when the CPU pops a read cycle,
the quantum re-queues that exact cycle at the front of the queue and
skips all of its phase-2 steps, leaving `A`, `X`, `Y`, flags, stack,
instruction pointer, the scratch operand and the memory unchanged —
phase 1 and the bus read still run, so the bus latches the read data and
an effective-address phase 1 clears the scratch vector, and
`synchronize` keeps looping over its remaining quanta rather than
returning; when the front cycle is a write cycle the quantum is the
unconditional one — the `rdy` gate is never consulted. -/
theorem rdy_freeze_read_cycles :
    (∀ (st st1 : Mos6502) (c : Cycle) (rest : List Cycle),
      st.instruction_queue = c :: rest → st.rdy = false →
      c.bus_mode = BusMode.Read → stepCycle st = some st1 →
      st1.instruction_queue = c :: rest ∧ st1.a = st.a ∧ st1.x = st.x ∧
      st1.y = st.y ∧ st1.flags = st.flags ∧ st1.stack = st.stack ∧
      st1.instruction_pointer = st.instruction_pointer ∧
      st1.operand = st.operand ∧ st1.mem = st.mem) ∧
    (∀ (st : Mos6502) (c : Cycle) (rest : List Cycle),
      st.instruction_queue = c :: rest → c.bus_mode = BusMode.Write →
      stepCycle st = stepUnchecked st) := by
  constructor
  · intro st st1 c rest hq hr hbm hstep
    unfold stepCycle at hstep
    rw [hq] at hstep
    dsimp only at hstep
    cases happ : applyPhi1 { st with instruction_queue := rest } c.phi1 with
    | none => rw [happ] at hstep; exact Option.noConfusion hstep
    | some stA =>
      rw [happ] at hstep
      obtain ⟨ha, hx, hy, hf, hs, hip, hop, hqu, hrdy, hmem⟩ :=
        applyPhi1_preserves _ _ _ happ
      rw [hbm] at hstep
      dsimp only at hstep
      have hrdyA : stA.rdy = false := by rw [hrdy]; exact hr
      rw [hrdyA] at hstep
      simp only [Bool.false_eq_true, if_false, Option.some.injEq] at hstep
      subst hstep
      refine ⟨?_, ha, hx, hy, hf, hs, hip, hop, hmem⟩
      show c :: stA.instruction_queue = c :: rest
      rw [hqu]
  · intro st c rest hq hbm
    unfold stepCycle stepUnchecked
    rw [hq]
    dsimp only
    cases applyPhi1 { st with instruction_queue := rest } c.phi1 with
    | none => rfl
    | some stA =>
      rw [hbm]

/-- C9 (witness): the read-freeze applied to a concretely frozen CPU (one
pending dummy read cycle, `rdy` low) — the step is the identity up to the
latched bus data — and the write-cycle independence applied to a pending
write. -/
theorem rdy_freeze_read_cycles_witness :
    (frozenState.instruction_queue = Cycle.dummy :: [] ∧
     frozenState.a = frozenState.a ∧ frozenState.x = frozenState.x ∧
     frozenState.y = frozenState.y ∧ frozenState.flags = frozenState.flags ∧
     frozenState.stack = frozenState.stack ∧
     frozenState.instruction_pointer = frozenState.instruction_pointer ∧
     frozenState.operand = frozenState.operand ∧
     frozenState.mem = frozenState.mem) ∧
    stepCycle pendingWriteState = stepUnchecked pendingWriteState :=
  ⟨rdy_freeze_read_cycles.1 frozenState frozenState Cycle.dummy [] rfl rfl rfl rfl,
   rdy_freeze_read_cycles.2 pendingWriteState _ [] rfl rfl⟩

end Mos6502

end Fluxemu
